import Mathlib

/-!
# wayfire dbus_interface plugin

A shallow embedding of `src/dbus_interface.cpp`: the handlers that the plugin
connects to wayfire signals, the constructor that subscribes them, and the
bookkeeping for tracked outputs.  Every handler is a function from the plugin
state and the signal payload to the new state and the list of bus signals it
emits, in emission order.

Conventions.
* `uint32_t` ids, buttons and edge masks are `Nat`; `int` fields are `Int`.
  No arithmetic is done on them, the handlers only copy them.
* `double` cursor coordinates are carried as `Rat`: they are copied into the
  message unchanged and never computed with.
* A `wayfire_view` is a nullable pointer, hence `Option view_t`.  A handler
  that dereferences a null view ends in `Fault.null_dereference`.
-/

namespace DbusInterface

/-! ## Host objects -/

/-- Roles of a view (wf::view_role_t).  VIEW_ROLE_OTHER stands for any value
of the enumeration outside the three named ones. -/
inductive view_role_t where
  | VIEW_ROLE_TOPLEVEL
  | VIEW_ROLE_UNMANAGED
  | VIEW_ROLE_DESKTOP_ENVIRONMENT
  | VIEW_ROLE_OTHER
  deriving DecidableEq, Repr

/-- Rectangle wf::geometry_t. -/
structure geometry_t where
  x : Int
  y : Int
  width : Int
  height : Int
  deriving DecidableEq, Repr

/-- Cursor position wf::pointf_t. -/
structure pointf_t where
  x : Rat
  y : Rat
  deriving DecidableEq, Repr

/-- An output (wf::output_t), identified by its id. -/
structure output_t where
  id : Nat
  deriving DecidableEq, Repr

/-- The part of a view object (wf::view_interface_t) that the plugin reads or
writes.  `data` lists the keys of the custom data stored on the view and
`focus_requests` counts the calls of `focus_request()` made on it. -/
structure view_t where
  id : Nat
  role : view_role_t
  activated : Bool
  data : List String
  app_id : String
  title : String
  output_geometry : geometry_t
  focus_requests : Nat
  deriving DecidableEq, Repr

/-- Nullable pointer to a view. -/
abbrev wayfire_view := Option view_t

/-- Method view->has_data(key). -/
def view_t.has_data (v : view_t) (key : String) : Bool :=
  decide (key ∈ v.data)

/-- Method view->erase_data(key). -/
def view_t.erase_data (v : view_t) (key : String) : view_t :=
  { v with data := v.data.filter (fun k => decide (k ≠ key)) }

/-- Method view->set_activated(active). -/
def view_t.set_activated (v : view_t) (active : Bool) : view_t :=
  { v with activated := active }

/-- Method view->focus_request(). -/
def view_t.focus_request (v : view_t) : view_t :=
  { v with focus_requests := v.focus_requests + 1 }

/-- Button state of a pointer event (wlr_button_state). -/
inductive wlr_button_state where
  | WLR_BUTTON_RELEASED
  | WLR_BUTTON_PRESSED
  deriving DecidableEq, Repr

/-- Payload wlr_event_pointer_button, the fields the handler reads. -/
structure wlr_event_pointer_button where
  button : Nat
  state : wlr_button_state
  deriving DecidableEq, Repr

/-- Host queries answered by wf::get_core() at the time a handler runs. -/
structure compositor_core_t where
  get_cursor_position : pointf_t
  get_view_at : pointf_t → wayfire_view
  get_outputs : List output_t
  get_all_views : List view_t

/-- The GSettings store "org.wayland.compositor.dbus", the two keys read. -/
structure GSettings where
  geometry_signal : Bool
  startup_notify : String
  deriving DecidableEq, Repr

/-! ## Signal payloads -/

/-- Payload wf::view_fullscreen_signal. -/
structure view_fullscreen_signal where
  view : wayfire_view
  state : Bool
  deriving DecidableEq, Repr

/-- Payload wf::view_tiled_signal. -/
structure view_tiled_signal where
  view : wayfire_view
  new_edges : Nat
  deriving DecidableEq, Repr

/-- Payload wf::view_moved_to_output_signal (also the pre-moved one). -/
structure view_moved_to_output_signal where
  view : wayfire_view
  old_output : output_t
  new_output : output_t
  deriving DecidableEq, Repr

/-- Payload wf::view_change_workspace_signal, the field read. -/
structure view_change_workspace_signal where
  view : wayfire_view
  deriving DecidableEq, Repr

/-- Payload wf::view_minimize_request_signal. -/
structure view_minimize_request_signal where
  view : wayfire_view
  state : Bool
  deriving DecidableEq, Repr

/-- Payload wf::focus_view_signal. -/
structure focus_view_signal where
  view : wayfire_view
  deriving DecidableEq, Repr

/-- Payload wf::view_focus_request_signal. -/
structure view_focus_request_signal where
  view : wayfire_view
  carried_out : Bool
  self_request : Bool
  deriving DecidableEq, Repr

/-- Payload wf::view_hints_changed_signal. -/
structure view_hints_changed_signal where
  view : wayfire_view
  deriving DecidableEq, Repr

/-- Payload wf::workspace_changed_signal, the fields read. -/
structure workspace_changed_signal where
  new_viewport_x : Int
  new_viewport_y : Int
  output : output_t
  deriving DecidableEq, Repr

/-! ## Bus messages -/

/-- One scalar of a GVariant tuple, tagged with its format character. -/
inductive GVariant where
  | u (n : Nat)
  | i (n : Int)
  | b (v : Bool)
  | d (x : Rat)
  | s (v : String)
  deriving DecidableEq, Repr

/-- A call bus_emit_signal(name, data); `data = none` is the nullptr payload. -/
structure bus_signal where
  name : String
  data : Option (List GVariant)
  deriving DecidableEq, Repr

/-! ## Plugin state -/

/-- The members of dbus_interface_t that hold a wf::signal_connection_t, plus
the GSettings callback. -/
inductive handler_t where
  | pointer_button_signal
  | tablet_button_signal
  | output_view_added
  | view_timeout
  | view_closed
  | view_app_id_changed
  | view_title_changed
  | view_fullscreen_changed
  | view_geometry_changed
  | view_tiled
  | view_output_moved
  | view_output_move_requested
  | role_changed
  | view_workspaces_changed
  | output_view_maximized
  | output_view_minimized
  | output_view_focus_changed
  | view_focus_request
  | view_hints_changed
  | output_view_moving
  | output_view_resizing
  | on_view_keep_above
  | output_configuration_changed
  | output_workspace_changed
  | output_layout_output_added
  | output_layout_output_removed
  | settings_changed
  deriving DecidableEq, Repr

/-- The object a handler is connected to.  A view is named by its id. -/
inductive provider_t where
  | output (o : output_t)
  | view (id : Nat)
  | core
  | output_layout
  | settings
  deriving DecidableEq, Repr

/-- One subscription handle: the record of one connect_signal call. -/
structure connection_t where
  provider : provider_t
  name : String
  handler : handler_t
  deriving DecidableEq, Repr

/-- Capabilities of a grab interface; the plugin only uses this one. -/
inductive capability_t where
  | CAPABILITY_GRAB_INPUT
  deriving DecidableEq, Repr

/-- The object wf::plugin_grab_interface_t after the plugin filled it in. -/
structure plugin_grab_interface_t where
  output : output_t
  name : String
  capabilities : capability_t
  deriving DecidableEq, Repr

/-- The globals of the plugin together with the record of the calls it made
on the host.  `geometry_signal` is declared in dbus_interface.cpp; the
other globals are declared in dbus_interface_backend.cpp and used here.
`connections` lists the connect_signal calls made so far (the code never
disconnects) and `commands_run` the commands passed to core.run. -/
structure State where
  geometry_signal : Bool
  focused_view_id : Nat
  find_view_under_action : Bool
  wf_outputs : List output_t
  connected_wf_outputs : List output_t
  grab_interfaces : List (output_t × plugin_grab_interface_t)
  connections : List connection_t
  commands_run : List String
  deriving DecidableEq, Repr

/-- The ways a handler can go wrong. -/
inductive Fault where
  | null_dereference
  deriving DecidableEq, Repr

/-- What a handler without a view leaves behind. -/
structure Result where
  st : State
  emitted : List bus_signal
  deriving DecidableEq, Repr

/-- What a view handler leaves behind: the state, the view object after the
handler ran, and the emitted bus signals. -/
structure ViewResult where
  st : State
  view : wayfire_view
  emitted : List bus_signal
  deriving DecidableEq, Repr

/-- What view_focus_request leaves behind: it also writes to its payload. -/
structure FocusRequestResult where
  st : State
  signal : view_focus_request_signal
  emitted : List bus_signal
  deriving DecidableEq, Repr

/-! ## Containers -/

/-- Membership test `s.find(x) != s.end()` of a std::set. -/
def set_contains (s : List output_t) (x : output_t) : Bool :=
  decide (x ∈ s)

/-- Insertion `s.insert(x)` of a std::set: nothing happens when x is present. -/
def set_insert (s : List output_t) (x : output_t) : List output_t :=
  if x ∈ s then s else s ++ [x]

/-- Removal `s.erase(x)` of a std::set. -/
def set_erase (s : List output_t) (x : output_t) : List output_t :=
  s.filter (fun y => decide (y ≠ x))

/-- Removal `m.erase(k)` of a std::map. -/
def map_erase (m : List (output_t × plugin_grab_interface_t)) (k : output_t) :
    List (output_t × plugin_grab_interface_t) :=
  m.filter (fun e => decide (e.1 ≠ k))

/-- Assignment `m[k] = v` of a std::map: the old entry for k, if any, is
replaced. -/
def map_assign (m : List (output_t × plugin_grab_interface_t)) (k : output_t)
    (v : plugin_grab_interface_t) : List (output_t × plugin_grab_interface_t) :=
  map_erase m k ++ [(k, v)]

/-- Keys of a std::map. -/
def map_keys (m : List (output_t × plugin_grab_interface_t)) : List output_t :=
  m.map Prod.fst

/-- The call provider->connect_signal(name, &handler). -/
def connect_signal (st : State) (provider : provider_t) (name : String)
    (handler : handler_t) : State :=
  { st with connections := st.connections ++ [⟨provider, name, handler⟩] }

/-- A run of connect_signal calls on one provider, in order. -/
def connect_all (provider : provider_t) (signals : List (String × handler_t))
    (st : State) : State :=
  signals.foldl (fun s e => connect_signal s provider e.1 e.2) st

/-- The three statements that create and fill grab_interfaces[output]. -/
def make_grab_interface (output : output_t) : plugin_grab_interface_t :=
  { output := output, name := "dbus", capabilities := capability_t.CAPABILITY_GRAB_INPUT }

/-! ## Pieces declared in dbus_interface_backend.cpp -/

/-- Modelled from the spec: `check_view_toplevel` is declared in
dbus_interface_backend.cpp, which is not among the sources; the handlers use
it as an expression over their local variable `view`.  The spec says that
these handlers only proceed if the role of the originating view is top-level
and that an event whose view does not resolve is dropped. -/
def check_view_toplevel (view : wayfire_view) : Bool :=
  match view with
  | none => false
  | some v => decide (v.role = view_role_t.VIEW_ROLE_TOPLEVEL)

/-- Modelled from the spec: the globals of dbus_interface_backend.cpp before
the constructor runs.  The registry of tracked outputs and the table of grab
interfaces start empty and nothing is subscribed; the startup enumeration of
outputs and the two scalars are whatever the backend set them to. -/
def backend_globals (wf_outputs : List output_t) (find_view_under_action : Bool)
    (focused_view_id : Nat) : State :=
  { geometry_signal := false
    focused_view_id := focused_view_id
    find_view_under_action := find_view_under_action
    wf_outputs := wf_outputs
    connected_wf_outputs := []
    grab_interfaces := []
    connections := []
    commands_run := [] }

/-! ## The settings callback -/

/-- The callback settings_changed(settings, key, user_data). -/
def settings_changed (st : State) (settings : GSettings) (key : String) : State :=
  if key = "geometry-signal" then
    { st with geometry_signal := settings.geometry_signal }
  else
    st

/-! ## View related slots -/

/-- Slot pointer_button_signal. -/
def pointer_button_signal (core : compositor_core_t) (st : State)
    (wlr_signal : wlr_event_pointer_button) : Result :=
  let cursor_position := core.get_cursor_position
  let button_state := wlr_signal.state
  let button := wlr_signal.button
  let button_released := decide (button_state = wlr_button_state.WLR_BUTTON_RELEASED)
  let first : List bus_signal :=
    if st.find_view_under_action = true ∧ button_released = true then
      let view := core.get_view_at cursor_position
      [⟨"view_pressed", some [GVariant.u (match view with
                                           | some v => v.id
                                           | none => 0)]⟩]
    else
      []
  { st := st
    emitted := first ++
      [⟨"pointer_clicked", some [GVariant.d cursor_position.x, GVariant.d cursor_position.y,
                                 GVariant.u button, GVariant.b button_released]⟩] }

/-- Slot tablet_button_signal. -/
def tablet_button_signal (st : State) : Result :=
  { st := st, emitted := [⟨"tablet_touched", none⟩] }

/-- The six connect_signal calls made on a view, in source order (the same in
the constructor and in output_view_added). -/
def view_signals : List (String × handler_t) :=
  [("app-id-changed", handler_t.view_app_id_changed),
   ("title-changed", handler_t.view_title_changed),
   ("geometry-changed", handler_t.view_geometry_changed),
   ("unmapped", handler_t.view_closed),
   ("tiled", handler_t.view_tiled),
   ("ping-timeout", handler_t.view_timeout)]

/-- Slot output_view_added, connected to "view-mapped". -/
def output_view_added (st : State) (view : wayfire_view) : Except Fault ViewResult :=
  match view with
  | none => .ok { st := st, view := view, emitted := [] }
  | some v =>
    .ok { st := connect_all (provider_t.view v.id) view_signals st
          view := view
          emitted := [⟨"view_added", some [GVariant.u v.id]⟩] }

/-- Slot view_timeout, connected to "ping-timeout". -/
def view_timeout (st : State) (view : wayfire_view) : Except Fault ViewResult :=
  match view with
  | none => .ok { st := st, view := view, emitted := [] }
  | some v => .ok { st := st, view := view, emitted := [⟨"view_timeout", some [GVariant.u v.id]⟩] }

/-- Slot view_closed, connected to "unmapped". -/
def view_closed (st : State) (view : wayfire_view) : Except Fault ViewResult :=
  match view with
  | none => .ok { st := st, view := view, emitted := [] }
  | some v => .ok { st := st, view := view, emitted := [⟨"view_closed", some [GVariant.u v.id]⟩] }

/-- Slot view_app_id_changed. -/
def view_app_id_changed (st : State) (view : wayfire_view) : Except Fault ViewResult :=
  match view with
  | none => .ok { st := st, view := view, emitted := [] }
  | some v =>
    .ok { st := st, view := view
          emitted := [⟨"view_app_id_changed", some [GVariant.u v.id, GVariant.s v.app_id]⟩] }

/-- Slot view_title_changed. -/
def view_title_changed (st : State) (view : wayfire_view) : Except Fault ViewResult :=
  if check_view_toplevel view = false then
    .ok { st := st, view := view, emitted := [] }
  else
    match view with
    | none => .error Fault.null_dereference
    | some v =>
      .ok { st := st, view := view
            emitted := [⟨"view_title_changed", some [GVariant.u v.id, GVariant.s v.title]⟩] }

/-- Slot view_fullscreen_changed, connected to "view-fullscreen-request". -/
def view_fullscreen_changed (st : State) (signal : view_fullscreen_signal) :
    Except Fault ViewResult :=
  match signal.view with
  | none => .error Fault.null_dereference
  | some v =>
    .ok { st := st, view := signal.view
          emitted := [⟨"view_fullscreen_changed", some [GVariant.u v.id, GVariant.b signal.state]⟩] }

/-- Slot view_geometry_changed. -/
def view_geometry_changed (st : State) (view : wayfire_view) : Except Fault ViewResult :=
  if st.geometry_signal = false then
    .ok { st := st, view := view, emitted := [] }
  else
    match view with
    | none => .error Fault.null_dereference
    | some v =>
      let geometry := v.output_geometry
      .ok { st := st, view := view
            emitted := [⟨"view_geometry_changed",
              some [GVariant.u v.id, GVariant.i geometry.x, GVariant.i geometry.y,
                    GVariant.i geometry.width, GVariant.i geometry.height]⟩] }

/-- Slot view_tiled, connected to "tiled". -/
def view_tiled (st : State) (signal : view_tiled_signal) : Except Fault ViewResult :=
  let view := signal.view
  if check_view_toplevel view = false then
    .ok { st := st, view := view, emitted := [] }
  else
    match view with
    | none => .error Fault.null_dereference
    | some v =>
      .ok { st := st, view := view
            emitted := [⟨"view_tiling_changed", some [GVariant.u v.id, GVariant.u signal.new_edges]⟩] }

/-- Slot view_output_moved, connected to "view-moved-to-output". -/
def view_output_moved (st : State) (signal : view_moved_to_output_signal) :
    Except Fault ViewResult :=
  let view := signal.view
  if check_view_toplevel view = false then
    .ok { st := st, view := view, emitted := [] }
  else
    match view with
    | none => .error Fault.null_dereference
    | some v =>
      let old_output := signal.old_output
      let new_output := signal.new_output
      .ok { st := st, view := view
            emitted := [⟨"view_output_moved",
              some [GVariant.u v.id, GVariant.u old_output.id, GVariant.u new_output.id]⟩] }

/-- Slot view_output_move_requested, connected to "view-pre-moved-to-output". -/
def view_output_move_requested (st : State) (signal : view_moved_to_output_signal) :
    Except Fault ViewResult :=
  let view := signal.view
  match view with
  | some v =>
    let old_output := signal.old_output
    let new_output := signal.new_output
    .ok { st := st, view := view
          emitted := [⟨"view_output_move_requested",
            some [GVariant.u v.id, GVariant.u old_output.id, GVariant.u new_output.id]⟩] }
  | none => .ok { st := st, view := view, emitted := [] }

/-- Slot role_changed, connected to "view-layer-attached" and
"view-layer-detached". -/
def role_changed (st : State) (view : wayfire_view) : Except Fault ViewResult :=
  match view with
  | none => .ok { st := st, view := view, emitted := [] }
  | some v =>
    let role : Nat :=
      if v.role = view_role_t.VIEW_ROLE_TOPLEVEL then 1
      else if v.role = view_role_t.VIEW_ROLE_DESKTOP_ENVIRONMENT then 2
      else if v.role = view_role_t.VIEW_ROLE_UNMANAGED then 3
      else 0
    .ok { st := st, view := view
          emitted := [⟨"view_role_changed", some [GVariant.u v.id, GVariant.u role]⟩] }

/-- Slot view_workspaces_changed. -/
def view_workspaces_changed (st : State) (signal : view_change_workspace_signal) :
    Except Fault ViewResult :=
  let view := signal.view
  if check_view_toplevel view = false then
    .ok { st := st, view := view, emitted := [] }
  else
    match view with
    | none => .error Fault.null_dereference
    | some v =>
      .ok { st := st, view := view
            emitted := [⟨"view_workspaces_changed", some [GVariant.u v.id]⟩] }

/-- The constant wf::TILED_EDGES_ALL of the wayfire headers: all four edges. -/
def TILED_EDGES_ALL : Nat := 15

/-- Slot output_view_maximized, connected to "view-tile-request". -/
def output_view_maximized (st : State) (signal : view_tiled_signal) : Except Fault ViewResult :=
  let view := signal.view
  if check_view_toplevel view = false then
    .ok { st := st, view := view, emitted := [] }
  else
    match view with
    | none => .error Fault.null_dereference
    | some v =>
      let maximized := decide (signal.new_edges = TILED_EDGES_ALL)
      .ok { st := st, view := view
            emitted := [⟨"view_maximized_changed", some [GVariant.u v.id, GVariant.b maximized]⟩] }

/-- Slot output_view_minimized, connected to "view-minimize-request". -/
def output_view_minimized (st : State) (signal : view_minimize_request_signal) :
    Except Fault ViewResult :=
  let view := signal.view
  if check_view_toplevel view = false then
    .ok { st := st, view := view, emitted := [] }
  else
    match view with
    | none => .error Fault.null_dereference
    | some v =>
      let minimized := signal.state
      .ok { st := st, view := view
            emitted := [⟨"view_minimized_changed", some [GVariant.u v.id, GVariant.b minimized]⟩] }

/-- Slot output_view_focus_changed, connected to "view-focused". -/
def output_view_focus_changed (st : State) (signal : focus_view_signal) :
    Except Fault ViewResult :=
  let view := signal.view
  if check_view_toplevel view = false then
    .ok { st := st, view := view, emitted := [] }
  else
    match view with
    | none => .error Fault.null_dereference
    | some v =>
      let view_id := v.id
      if view_id = st.focused_view_id then
        .ok { st := st, view := view, emitted := [] }
      else if v.role ≠ view_role_t.VIEW_ROLE_TOPLEVEL then
        .ok { st := st, view := view, emitted := [] }
      else if v.activated = false then
        .ok { st := st, view := view, emitted := [] }
      else
        let v1 :=
          if v.has_data "view-demands-attention" = true then
            v.erase_data "view-demands-attention"
          else
            v
        .ok { st := { st with focused_view_id := view_id }
              view := some v1
              emitted := [⟨"view_focus_changed", some [GVariant.u view_id]⟩] }

/-- Slot view_focus_request.  The queries get_active_output and get_output
are made and their answers dropped, as in the source. -/
def view_focus_request (st : State) (signal : view_focus_request_signal) :
    Except Fault FocusRequestResult :=
  if signal.carried_out = true then
    .ok { st := st, signal := signal, emitted := [] }
  else if signal.self_request = false then
    .ok { st := st, signal := signal, emitted := [] }
  else
    let view := signal.view
    if check_view_toplevel view = false then
      .ok { st := st, signal := signal, emitted := [] }
    else
      match view with
      | none => .error Fault.null_dereference
      | some v =>
        .ok { st := st
              signal := { signal with
                          carried_out := true
                          view := some ((v.set_activated true).focus_request) }
              emitted := [] }

/-- Slot view_hints_changed. -/
def view_hints_changed (st : State) (signal : view_hints_changed_signal) :
    Except Fault ViewResult :=
  let view := signal.view
  if check_view_toplevel view = false then
    .ok { st := st, view := view, emitted := [] }
  else
    match view with
    | none => .error Fault.null_dereference
    | some v =>
      let view_wants_attention :=
        if v.has_data "view-demands-attention" = true then true else false
      .ok { st := st, view := view
            emitted := [⟨"view_attention_changed",
              some [GVariant.u v.id, GVariant.b view_wants_attention]⟩] }

/-- Slot output_view_moving, connected to "view-move-request". -/
def output_view_moving (st : State) (view : wayfire_view) : Except Fault ViewResult :=
  if check_view_toplevel view = false then
    .ok { st := st, view := view, emitted := [] }
  else
    match view with
    | none => .error Fault.null_dereference
    | some v =>
      .ok { st := st, view := view, emitted := [⟨"view_moving_changed", some [GVariant.u v.id]⟩] }

/-- Slot output_view_resizing, connected to "view-resize-request". -/
def output_view_resizing (st : State) (view : wayfire_view) : Except Fault ViewResult :=
  if check_view_toplevel view = false then
    .ok { st := st, view := view, emitted := [] }
  else
    match view with
    | none => .error Fault.null_dereference
    | some v =>
      .ok { st := st, view := view, emitted := [⟨"view_resizing_changed", some [GVariant.u v.id]⟩] }

/-- Slot on_view_keep_above, connected to "wm-actions-above-changed". -/
def on_view_keep_above (st : State) (view : wayfire_view) : Except Fault ViewResult :=
  if check_view_toplevel view = false then
    .ok { st := st, view := view, emitted := [] }
  else
    match view with
    | none => .error Fault.null_dereference
    | some v =>
      .ok { st := st, view := view
            emitted := [⟨"view_keep_above_changed",
              some [GVariant.u v.id, GVariant.b (v.has_data "wm-actions-above")]⟩] }

/-! ## Output related slots -/

/-- Slot output_configuration_changed. -/
def output_configuration_changed (st : State) : Result :=
  { st := st, emitted := [⟨"output_configuration_changed", none⟩] }

/-- Slot output_workspace_changed, connected to "workspace-changed". -/
def output_workspace_changed (st : State) (signal : workspace_changed_signal) : Result :=
  let newHorizontalWorkspace := signal.new_viewport_x
  let newVerticalWorkspace := signal.new_viewport_y
  let output := signal.output
  { st := st
    emitted := [⟨"output_workspace_changed",
      some [GVariant.u output.id, GVariant.i newHorizontalWorkspace,
            GVariant.i newVerticalWorkspace]⟩] }

/-- The thirteen connect_signal calls that output_layout_output_added makes on
the output, in source order. -/
def added_output_signals : List (String × handler_t) :=
  [("wm-actions-above-changed", handler_t.on_view_keep_above),
   ("view-fullscreen-request", handler_t.view_fullscreen_changed),
   ("view-mapped", handler_t.output_view_added),
   ("output-configuration-changed", handler_t.output_configuration_changed),
   ("view-minimize-request", handler_t.output_view_minimized),
   ("view-tile-request", handler_t.output_view_maximized),
   ("view-move-request", handler_t.output_view_moving),
   ("view-change-viewport", handler_t.view_workspaces_changed),
   ("workspace-changed", handler_t.output_workspace_changed),
   ("view-resize-request", handler_t.output_view_resizing),
   ("view-focused", handler_t.output_view_focus_changed),
   ("view-layer-attached", handler_t.role_changed),
   ("view-layer-detached", handler_t.role_changed)]

/-- Slot output_layout_output_added, connected to "output-added". -/
def output_layout_output_added (core : compositor_core_t) (st : State)
    (output : output_t) : Result :=
  if set_contains st.connected_wf_outputs output = true then
    { st := st, emitted := [] }
  else
    let st1 := { st with
      grab_interfaces := map_assign st.grab_interfaces output (make_grab_interface output) }
    let st2 := connect_all (provider_t.output output) added_output_signals st1
    let st3 := { st2 with wf_outputs := core.get_outputs }
    let st4 := { st3 with connected_wf_outputs := set_insert st3.connected_wf_outputs output }
    { st := st4, emitted := [⟨"output_added", some [GVariant.u output.id]⟩] }

/-- Slot output_layout_output_removed, connected to "output-removed". -/
def output_layout_output_removed (core : compositor_core_t) (st : State)
    (output : output_t) : Result :=
  if set_contains st.connected_wf_outputs output = true then
    let st1 := { st with wf_outputs := core.get_outputs }
    let st2 := { st1 with connected_wf_outputs := set_erase st1.connected_wf_outputs output }
    { st := { st2 with grab_interfaces := map_erase st2.grab_interfaces output }
      emitted := [⟨"output_removed", some [GVariant.u output.id]⟩] }
  else
    { st := { st with grab_interfaces := map_erase st.grab_interfaces output }
      emitted := [] }

/-! ## The constructor -/

/-- The thirteen connect_signal calls that the constructor makes on every
output of wf_outputs, in source order. -/
def startup_output_signals : List (String × handler_t) :=
  [("view-mapped", handler_t.output_view_added),
   ("wm-actions-above-changed", handler_t.on_view_keep_above),
   ("output-configuration-changed", handler_t.output_configuration_changed),
   ("view-minimize-request", handler_t.output_view_minimized),
   ("view-tile-request", handler_t.output_view_maximized),
   ("view-move-request", handler_t.output_view_moving),
   ("view-resize-request", handler_t.output_view_resizing),
   ("view-change-workspace", handler_t.view_workspaces_changed),
   ("workspace-changed", handler_t.output_workspace_changed),
   ("view-layer-attached", handler_t.role_changed),
   ("view-layer-detached", handler_t.role_changed),
   ("view-focused", handler_t.output_view_focus_changed),
   ("view-fullscreen-request", handler_t.view_fullscreen_changed)]

/-- Body of the constructor loop over wf_outputs. -/
def startup_output (st : State) (output : output_t) : State :=
  let st1 := { st with
    grab_interfaces := map_assign st.grab_interfaces output (make_grab_interface output) }
  let st2 := connect_all (provider_t.output output) startup_output_signals st1
  { st2 with connected_wf_outputs := set_insert st2.connected_wf_outputs output }

/-- Body of the constructor loop over core.get_all_views(). -/
def startup_view (st : State) (view : view_t) : State :=
  connect_all (provider_t.view view.id) view_signals st

/-- The connect_signal calls made on the core object. -/
def core_signals : List (String × handler_t) :=
  [("view-hints-changed", handler_t.view_hints_changed),
   ("view-focus-request", handler_t.view_focus_request),
   ("view-pre-moved-to-output", handler_t.view_output_move_requested),
   ("view-moved-to-output", handler_t.view_output_moved),
   ("pointer_button", handler_t.pointer_button_signal),
   ("tablet_button", handler_t.tablet_button_signal)]

/-- The connect_signal calls made on core.output_layout. -/
def output_layout_signals : List (String × handler_t) :=
  [("output-added", handler_t.output_layout_output_added),
   ("output-removed", handler_t.output_layout_output_removed)]

/-- The constructor dbus_interface_t(), run on the globals `g` as the backend
left them.  The call acquire_bus() belongs to the backend and touches none of
the fields modelled here. -/
def dbus_interface_t (core : compositor_core_t) (settings : GSettings) (g : State) : State :=
  let st1 := g.wf_outputs.foldl startup_output g
  let st2 := core.get_all_views.foldl startup_view st1
  let st3 := connect_all provider_t.core core_signals st2
  let st4 := connect_all provider_t.output_layout output_layout_signals st3
  let st5 := connect_signal st4 provider_t.settings "changed" handler_t.settings_changed
  let st6 := { st5 with geometry_signal := settings.geometry_signal }
  let startup_notify_cmd := settings.startup_notify
  if startup_notify_cmd ≠ "" then
    { st6 with commands_run := st6.commands_run ++ [startup_notify_cmd] }
  else
    st6

/-! ## Event delivery -/

/-- A signal delivered by the host, named after the signal and carrying the
payload (and, where the slot queries the core, the answers of the core).
The slot view_workspaces_changed is connected under the name
"view-change-workspace" by the constructor and "view-change-viewport" by
output_layout_output_added; view_change_workspace stands for both. -/
inductive Event where
  | pointer_button (core : compositor_core_t) (wlr_signal : wlr_event_pointer_button)
  | tablet_button
  | view_mapped (view : wayfire_view)
  | ping_timeout (view : wayfire_view)
  | unmapped (view : wayfire_view)
  | app_id_changed (view : wayfire_view)
  | title_changed (view : wayfire_view)
  | view_fullscreen_request (signal : view_fullscreen_signal)
  | geometry_changed (view : wayfire_view)
  | tiled (signal : view_tiled_signal)
  | view_moved_to_output (signal : view_moved_to_output_signal)
  | view_pre_moved_to_output (signal : view_moved_to_output_signal)
  | view_layer_attached (view : wayfire_view)
  | view_layer_detached (view : wayfire_view)
  | view_change_workspace (signal : view_change_workspace_signal)
  | view_tile_request (signal : view_tiled_signal)
  | view_minimize_request (signal : view_minimize_request_signal)
  | view_focused (signal : focus_view_signal)
  | view_focus_request (signal : view_focus_request_signal)
  | view_hints_changed (signal : view_hints_changed_signal)
  | view_move_request (view : wayfire_view)
  | view_resize_request (view : wayfire_view)
  | wm_actions_above_changed (view : wayfire_view)
  | output_configuration_changed
  | workspace_changed (signal : workspace_changed_signal)
  | output_added (core : compositor_core_t) (output : output_t)
  | output_removed (core : compositor_core_t) (output : output_t)
  | settings_changed (settings : GSettings) (key : String)

/-- State and bus signals of a view handler. -/
def ViewResult.toResult (r : ViewResult) : Result :=
  { st := r.st, emitted := r.emitted }

/-- State and bus signals of the focus request handler. -/
def FocusRequestResult.toResult (r : FocusRequestResult) : Result :=
  { st := r.st, emitted := r.emitted }

/-- The slot that each signal is connected to, applied to the payload. -/
def handle (st : State) : Event → Except Fault Result
  | Event.pointer_button core wlr_signal => .ok (pointer_button_signal core st wlr_signal)
  | Event.tablet_button => .ok (tablet_button_signal st)
  | Event.view_mapped view => (output_view_added st view).map ViewResult.toResult
  | Event.ping_timeout view => (view_timeout st view).map ViewResult.toResult
  | Event.unmapped view => (view_closed st view).map ViewResult.toResult
  | Event.app_id_changed view => (view_app_id_changed st view).map ViewResult.toResult
  | Event.title_changed view => (view_title_changed st view).map ViewResult.toResult
  | Event.view_fullscreen_request signal =>
      (view_fullscreen_changed st signal).map ViewResult.toResult
  | Event.geometry_changed view => (view_geometry_changed st view).map ViewResult.toResult
  | Event.tiled signal => (view_tiled st signal).map ViewResult.toResult
  | Event.view_moved_to_output signal => (view_output_moved st signal).map ViewResult.toResult
  | Event.view_pre_moved_to_output signal =>
      (view_output_move_requested st signal).map ViewResult.toResult
  | Event.view_layer_attached view => (role_changed st view).map ViewResult.toResult
  | Event.view_layer_detached view => (role_changed st view).map ViewResult.toResult
  | Event.view_change_workspace signal =>
      (view_workspaces_changed st signal).map ViewResult.toResult
  | Event.view_tile_request signal => (output_view_maximized st signal).map ViewResult.toResult
  | Event.view_minimize_request signal =>
      (output_view_minimized st signal).map ViewResult.toResult
  | Event.view_focused signal => (output_view_focus_changed st signal).map ViewResult.toResult
  | Event.view_focus_request signal =>
      (view_focus_request st signal).map FocusRequestResult.toResult
  | Event.view_hints_changed signal => (view_hints_changed st signal).map ViewResult.toResult
  | Event.view_move_request view => (output_view_moving st view).map ViewResult.toResult
  | Event.view_resize_request view => (output_view_resizing st view).map ViewResult.toResult
  | Event.wm_actions_above_changed view => (on_view_keep_above st view).map ViewResult.toResult
  | Event.output_configuration_changed => .ok (output_configuration_changed st)
  | Event.workspace_changed signal => .ok (output_workspace_changed st signal)
  | Event.output_added core output => .ok (output_layout_output_added core st output)
  | Event.output_removed core output => .ok (output_layout_output_removed core st output)
  | Event.settings_changed settings key =>
      .ok { st := settings_changed st settings key, emitted := [] }

/-- Handling a list of events one after the other; the bus signals are
collected in emission order and a fault ends the run. -/
def run (st : State) : List Event → Except Fault Result
  | [] => .ok { st := st, emitted := [] }
  | e :: es =>
    match handle st e with
    | .error f => .error f
    | .ok r =>
      match run r.st es with
      | .error f => .error f
      | .ok r2 => .ok { st := r2.st, emitted := r.emitted ++ r2.emitted }

/-- The states the plugin can be in: the state the constructor leaves, and
every state a handler leaves when run on such a state. -/
inductive Reachable : State → Prop where
  | construct (core : compositor_core_t) (settings : GSettings) (wf_outputs : List output_t)
      (find_view_under_action : Bool) (focused_view_id : Nat) :
      Reachable (dbus_interface_t core settings
        (backend_globals wf_outputs find_view_under_action focused_view_id))
  | step {st : State} (e : Event) {r : Result} :
      Reachable st → handle st e = .ok r → Reachable r.st

/-- Whether some subscription handle of the output exists. -/
def has_subscription (st : State) (output : output_t) : Bool :=
  st.connections.any (fun c => decide (c.provider = provider_t.output output))

/-- The subscription handles of one provider for one signal name. -/
def handles (st : State) (provider : provider_t) (name : String) : List connection_t :=
  st.connections.filter (fun c => decide (c.provider = provider ∧ c.name = name))

/-- The subscription handles of an output. -/
def output_handles (st : State) (output : output_t) : List connection_t :=
  st.connections.filter (fun c => decide (c.provider = provider_t.output output))

/-- The number of grab interfaces held for an output. -/
def grab_count (st : State) (output : output_t) : Nat :=
  (st.grab_interfaces.filter (fun e => decide (e.1 = output))).length

/-- The bus signals each event of a run of view-focused events emits, one
list per event. -/
def focus_trace (st : State) : List view_t → List (List bus_signal)
  | [] => []
  | v :: vs =>
    match output_view_focus_changed st { view := some v } with
    | .error _ => []
    | .ok r => r.emitted :: focus_trace r.st vs

/-! ## Concrete inputs used by the closed statements -/

/-- A view with the given id, role and activation and nothing else set. -/
def sample_view (id : Nat) (role : view_role_t) (activated : Bool) : view_t :=
  { id := id, role := role, activated := activated, data := [], app_id := "", title := ""
    output_geometry := { x := 0, y := 0, width := 0, height := 0 }, focus_requests := 0 }

/-- A core whose cursor is at (x, y) with `under` below it. -/
def sample_core (x y : Rat) (under : wayfire_view) : compositor_core_t :=
  { get_cursor_position := { x := x, y := y }
    get_view_at := fun _ => under
    get_outputs := []
    get_all_views := [] }

/-- The view of the geometry scenario: id 5, top-level, bounds (0, 0, 800, 600). -/
def geometry_view : view_t :=
  { sample_view 5 view_role_t.VIEW_ROLE_TOPLEVEL true with
    output_geometry := { x := 0, y := 0, width := 800, height := 600 } }

/-- The startup state of the tracking scenarios: the constructor run with one
output, id 1, and one view, id 7, already present. -/
def startup_state : State :=
  dbus_interface_t
    { get_cursor_position := { x := 0, y := 0 }
      get_view_at := fun _ => none
      get_outputs := [{ id := 1 }]
      get_all_views := [sample_view 7 view_role_t.VIEW_ROLE_TOPLEVEL true] }
    { geometry_signal := false, startup_notify := "" }
    (backend_globals [{ id := 1 }] false 0)

/-- The coupling between the registry of tracked outputs, the table of grab
interfaces and the subscription handles that the handlers maintain: an output
is in the registry exactly when it has a grab interface, and every output in
the registry has subscription handles. -/
def Coupled (st : State) : Prop :=
  ∀ o : output_t,
    (o ∈ st.connected_wf_outputs ↔ o ∈ map_keys st.grab_interfaces) ∧
    (o ∈ st.connected_wf_outputs → has_subscription st o = true)

/-- The relation between the states before and after a handler that neither
tracks nor untracks an output: registry and grab interfaces are the same and
subscription handles are only added. -/
def Grows (st st1 : State) : Prop :=
  st1.connected_wf_outputs = st.connected_wf_outputs ∧
  st1.grab_interfaces = st.grab_interfaces ∧
  ∃ extra, st1.connections = st.connections ++ extra

/-- The constructor seen as a handler: the state it leaves and the bus signals
it emits.  The constructor body (lines 63 to 159) contains no bus_emit_signal
call, so the list is empty. -/
def construct (core : compositor_core_t) (settings : GSettings) (g : State) : Result :=
  { st := dbus_interface_t core settings g, emitted := [] }

/-- The diagnostics of the callback settings_changed: the g_warning call in
its else branch.  The text is the format "No such settings %s" filled in. -/
def settings_changed_warnings (key : String) : List String :=
  if key = "geometry-signal" then [] else ["No such settings " ++ key]

/-- The hot-plug notifications of one output: added, removed, added, removed,
each with the answers of the core at that time. -/
def hot_plug (c1 c2 c3 c4 : compositor_core_t) (output : output_t) : List Event :=
  [Event.output_added c1 output, Event.output_removed c2 output,
   Event.output_added c3 output, Event.output_removed c4 output]

/-- A top-level, activated view with id 3 that carries the marker
"view-demands-attention". -/
def attention_view : view_t :=
  { sample_view 3 view_role_t.VIEW_ROLE_TOPLEVEL true with data := ["view-demands-attention"] }

/-- The (signal name, handler) pairs of a provider among the subscription
handles, in connection order. -/
def connected_pairs (st : State) (provider : provider_t) : List (String × handler_t) :=
  (st.connections.filter (fun c => decide (c.provider = provider))).map
    (fun c => (c.name, c.handler))

/-! ## Role filtering -/

/-- C1: for a view whose role is unmanaged, the handlers of title-changed,
tiled, view-change-workspace, view-move-request, view-resize-request,
view-moved-to-output and view-focused all return normally, emit no bus signal
at all, and leave the state and the view as they were. -/
theorem role_filtering_unmanaged (st : State) (v : view_t) (new_edges : Nat)
    (old_output new_output : output_t)
    (h : v.role = view_role_t.VIEW_ROLE_UNMANAGED) :
    view_title_changed st (some v) = .ok { st := st, view := some v, emitted := [] } ∧
    view_tiled st { view := some v, new_edges := new_edges }
      = .ok { st := st, view := some v, emitted := [] } ∧
    view_workspaces_changed st { view := some v }
      = .ok { st := st, view := some v, emitted := [] } ∧
    output_view_moving st (some v) = .ok { st := st, view := some v, emitted := [] } ∧
    output_view_resizing st (some v) = .ok { st := st, view := some v, emitted := [] } ∧
    view_output_moved st { view := some v, old_output := old_output, new_output := new_output }
      = .ok { st := st, view := some v, emitted := [] } ∧
    output_view_focus_changed st { view := some v }
      = .ok { st := st, view := some v, emitted := [] } := by
  simp [view_title_changed, view_tiled, view_workspaces_changed, output_view_moving,
    output_view_resizing, view_output_moved, output_view_focus_changed, check_view_toplevel, h]

/-- C1 at a concrete input: view 9, unmanaged and activated, on a state whose
focused id is 0; none of the seven handlers emits anything. -/
theorem role_filtering_unmanaged_witness :
    (sample_view 9 view_role_t.VIEW_ROLE_UNMANAGED true).role = view_role_t.VIEW_ROLE_UNMANAGED ∧
    (view_title_changed (backend_globals [] false 0)
        (some (sample_view 9 view_role_t.VIEW_ROLE_UNMANAGED true))
      = .ok { st := backend_globals [] false 0
              view := some (sample_view 9 view_role_t.VIEW_ROLE_UNMANAGED true)
              emitted := [] } ∧
    view_tiled (backend_globals [] false 0)
        { view := some (sample_view 9 view_role_t.VIEW_ROLE_UNMANAGED true), new_edges := 15 }
      = .ok { st := backend_globals [] false 0
              view := some (sample_view 9 view_role_t.VIEW_ROLE_UNMANAGED true)
              emitted := [] } ∧
    view_workspaces_changed (backend_globals [] false 0)
        { view := some (sample_view 9 view_role_t.VIEW_ROLE_UNMANAGED true) }
      = .ok { st := backend_globals [] false 0
              view := some (sample_view 9 view_role_t.VIEW_ROLE_UNMANAGED true)
              emitted := [] } ∧
    output_view_moving (backend_globals [] false 0)
        (some (sample_view 9 view_role_t.VIEW_ROLE_UNMANAGED true))
      = .ok { st := backend_globals [] false 0
              view := some (sample_view 9 view_role_t.VIEW_ROLE_UNMANAGED true)
              emitted := [] } ∧
    output_view_resizing (backend_globals [] false 0)
        (some (sample_view 9 view_role_t.VIEW_ROLE_UNMANAGED true))
      = .ok { st := backend_globals [] false 0
              view := some (sample_view 9 view_role_t.VIEW_ROLE_UNMANAGED true)
              emitted := [] } ∧
    view_output_moved (backend_globals [] false 0)
        { view := some (sample_view 9 view_role_t.VIEW_ROLE_UNMANAGED true)
          old_output := { id := 1 }, new_output := { id := 2 } }
      = .ok { st := backend_globals [] false 0
              view := some (sample_view 9 view_role_t.VIEW_ROLE_UNMANAGED true)
              emitted := [] } ∧
    output_view_focus_changed (backend_globals [] false 0)
        { view := some (sample_view 9 view_role_t.VIEW_ROLE_UNMANAGED true) }
      = .ok { st := backend_globals [] false 0
              view := some (sample_view 9 view_role_t.VIEW_ROLE_UNMANAGED true)
              emitted := [] }) :=
  ⟨rfl, role_filtering_unmanaged (backend_globals [] false 0)
    (sample_view 9 view_role_t.VIEW_ROLE_UNMANAGED true) 15 { id := 1 } { id := 2 } rfl⟩

/-! ## Pointer button -/

/-- C2, as stated, fails: in the scenario of the claim (release at (12.5, 7.0),
button 1, tracking enabled, view 42 under the cursor) the handler emits
view_pressed(42) first and pointer_clicked(12.5, 7.0, 1, true) second, which is
not the order the claim gives. -/
theorem pointer_scenario_order_counterexample :
    (pointer_button_signal
        (sample_core 12.5 7.0 (some (sample_view 42 view_role_t.VIEW_ROLE_TOPLEVEL true)))
        (backend_globals [] true 0)
        { button := 1, state := wlr_button_state.WLR_BUTTON_RELEASED }).emitted
      = [⟨"view_pressed", some [GVariant.u 42]⟩,
         ⟨"pointer_clicked", some [GVariant.d 12.5, GVariant.d 7.0, GVariant.u 1,
                                   GVariant.b true]⟩] ∧
    (pointer_button_signal
        (sample_core 12.5 7.0 (some (sample_view 42 view_role_t.VIEW_ROLE_TOPLEVEL true)))
        (backend_globals [] true 0)
        { button := 1, state := wlr_button_state.WLR_BUTTON_RELEASED }).emitted
      ≠ [⟨"pointer_clicked", some [GVariant.d 12.5, GVariant.d 7.0, GVariant.u 1,
                                   GVariant.b true]⟩,
         ⟨"view_pressed", some [GVariant.u 42]⟩] := by
  constructor
  · simp [pointer_button_signal, sample_core, sample_view, backend_globals]
  · simp [pointer_button_signal, sample_core, sample_view, backend_globals]

/-- C2 amended: for a released button handled while find_view_under_action is
set, the handler emits exactly two bus signals, view_pressed(id) first and
pointer_clicked(x, y, button, true) second, where id is the id of the view
under the cursor or 0 when there is none; the state is unchanged. -/
theorem pointer_released_emits (core : compositor_core_t) (st : State) (button : Nat)
    (h : st.find_view_under_action = true) :
    pointer_button_signal core st
        { button := button, state := wlr_button_state.WLR_BUTTON_RELEASED }
      = { st := st
          emitted :=
            [⟨"view_pressed",
                some [GVariant.u (match core.get_view_at core.get_cursor_position with
                                  | some v => v.id
                                  | none => 0)]⟩,
             ⟨"pointer_clicked",
                some [GVariant.d core.get_cursor_position.x, GVariant.d core.get_cursor_position.y,
                      GVariant.u button, GVariant.b true]⟩] } := by
  simp [pointer_button_signal, h]

/-- C2 amended at the scenario of the claim, and with nothing under the
cursor. -/
theorem pointer_released_emits_witness :
    (backend_globals [] true 0).find_view_under_action = true ∧
    (pointer_button_signal
        (sample_core 12.5 7.0 (some (sample_view 42 view_role_t.VIEW_ROLE_TOPLEVEL true)))
        (backend_globals [] true 0)
        { button := 1, state := wlr_button_state.WLR_BUTTON_RELEASED }).emitted
      = [⟨"view_pressed", some [GVariant.u 42]⟩,
         ⟨"pointer_clicked", some [GVariant.d 12.5, GVariant.d 7.0, GVariant.u 1,
                                   GVariant.b true]⟩] ∧
    (pointer_button_signal (sample_core 12.5 7.0 none) (backend_globals [] true 0)
        { button := 1, state := wlr_button_state.WLR_BUTTON_RELEASED }).emitted
      = [⟨"view_pressed", some [GVariant.u 0]⟩,
         ⟨"pointer_clicked", some [GVariant.d 12.5, GVariant.d 7.0, GVariant.u 1,
                                   GVariant.b true]⟩] := by
  refine ⟨rfl, ?_, ?_⟩
  · rw [pointer_released_emits _ _ _ rfl]; rfl
  · rw [pointer_released_emits _ _ _ rfl]; rfl

/-! ## Focus -/

/-- C3: on a view-focused event for a view v the handler returns normally.
When v.id differs from the stored focused id, the role of v is top-level and v
is activated, it emits exactly view_focus_changed(v.id) and the only change to
the state is that the stored focused id becomes v.id.  In every other case it
emits nothing and leaves the state, hence the stored focused id, unchanged. -/
theorem focus_gate (st : State) (v : view_t) :
    ∃ r, output_view_focus_changed st { view := some v } = .ok r ∧
      ((v.id ≠ st.focused_view_id ∧ v.role = view_role_t.VIEW_ROLE_TOPLEVEL ∧
          v.activated = true) →
        r.emitted = [⟨"view_focus_changed", some [GVariant.u v.id]⟩] ∧
        r.st = { st with focused_view_id := v.id }) ∧
      (¬ (v.id ≠ st.focused_view_id ∧ v.role = view_role_t.VIEW_ROLE_TOPLEVEL ∧
          v.activated = true) →
        r.emitted = [] ∧ r.st = st) := by
  by_cases hid : v.id = st.focused_view_id
  · by_cases hr : v.role = view_role_t.VIEW_ROLE_TOPLEVEL <;>
      simp [output_view_focus_changed, check_view_toplevel, hid, hr]
  · by_cases hr : v.role = view_role_t.VIEW_ROLE_TOPLEVEL
    · by_cases ha : v.activated = true
      · simp [output_view_focus_changed, check_view_toplevel, hid, hr, ha]
      · simp [output_view_focus_changed, check_view_toplevel, hid, hr, ha]
    · simp [output_view_focus_changed, check_view_toplevel, hid, hr]

/-- Once the stored focused id is v, view-focused events for views with id v
emit nothing. -/
theorem focus_trace_repeat (v : Nat) (views : List view_t) :
    ∀ st : State, st.focused_view_id = v → (∀ w ∈ views, w.id = v) →
      focus_trace st views = List.replicate views.length [] := by
  induction views with
  | nil => intro st _ _; rfl
  | cons w ws ih =>
    intro st hst hall
    have hw : w.id = st.focused_view_id := by rw [hst]; exact hall w (List.mem_cons_self _ _)
    have hws : ∀ x ∈ ws, x.id = v := fun x hx => hall x (List.mem_cons_of_mem _ hx)
    by_cases hr : w.role = view_role_t.VIEW_ROLE_TOPLEVEL
    · simp [focus_trace, output_view_focus_changed, check_view_toplevel, hw, hr,
        List.replicate_succ, ih st hst hws]
    · simp [focus_trace, output_view_focus_changed, check_view_toplevel, hr,
        List.replicate_succ, ih st hst hws]

/-- C4, as stated, fails in two ways.  A single view-focused event for view 7,
activated but unmanaged, emits nothing, where the claim has one
view_focus_changed(7).  And after the events for view 1 (top-level,
activated: accepted) and view 2 (not activated: rejected), a new event for
view 1 starts a sequence for id 1 and emits nothing, since the stored focused
id is still 1. -/
theorem focus_dedup_counterexample :
    ((sample_view 7 view_role_t.VIEW_ROLE_UNMANAGED true).id = 7 ∧
      (sample_view 7 view_role_t.VIEW_ROLE_UNMANAGED true).activated = true) ∧
    focus_trace (backend_globals [] false 0)
        [sample_view 7 view_role_t.VIEW_ROLE_UNMANAGED true] = [[]] ∧
    focus_trace (backend_globals [] false 0)
        [sample_view 7 view_role_t.VIEW_ROLE_UNMANAGED true]
      ≠ [[⟨"view_focus_changed", some [GVariant.u 7]⟩]] ∧
    focus_trace (backend_globals [] false 0)
        [sample_view 1 view_role_t.VIEW_ROLE_TOPLEVEL true,
         sample_view 2 view_role_t.VIEW_ROLE_TOPLEVEL false,
         sample_view 1 view_role_t.VIEW_ROLE_TOPLEVEL true]
      = [[⟨"view_focus_changed", some [GVariant.u 1]⟩], [], []] := by
  refine ⟨⟨rfl, rfl⟩, ?_, ?_, ?_⟩ <;>
    simp [focus_trace, output_view_focus_changed, check_view_toplevel, sample_view,
      backend_globals, view_t.has_data]

/-- C4 amended: for a run of n >= 1 consecutive view-focused events that all
carry the same view id v with activated = true and role top-level, handled
from a state whose stored focused id differs from v, the first event emits
exactly view_focus_changed(v) and every later event emits nothing. -/
theorem focus_dedup (st : State) (v : Nat) (first : view_t) (rest : List view_t)
    (hall : ∀ w ∈ first :: rest,
      w.id = v ∧ w.activated = true ∧ w.role = view_role_t.VIEW_ROLE_TOPLEVEL)
    (hnew : st.focused_view_id ≠ v) :
    focus_trace st (first :: rest)
      = [⟨"view_focus_changed", some [GVariant.u v]⟩] :: List.replicate rest.length [] := by
  obtain ⟨hid, hact, hrole⟩ := hall first (List.mem_cons_self _ _)
  have hrest : ∀ w ∈ rest, w.id = v := fun w hw => (hall w (List.mem_cons_of_mem _ hw)).1
  subst hid
  have hne : ¬ first.id = st.focused_view_id := fun h => hnew h.symm
  have htail := focus_trace_repeat first.id rest { st with focused_view_id := first.id } rfl hrest
  simp [focus_trace, output_view_focus_changed, check_view_toplevel, hne, hact, hrole, htail]

/-- C4 amended at a concrete input: three events for view 3 from a state whose
focused id is 0. -/
theorem focus_dedup_witness :
    focus_trace (backend_globals [] false 0)
        [sample_view 3 view_role_t.VIEW_ROLE_TOPLEVEL true,
         sample_view 3 view_role_t.VIEW_ROLE_TOPLEVEL true,
         sample_view 3 view_role_t.VIEW_ROLE_TOPLEVEL true]
      = [[⟨"view_focus_changed", some [GVariant.u 3]⟩], [], []] :=
  focus_dedup (backend_globals [] false 0) 3 (sample_view 3 view_role_t.VIEW_ROLE_TOPLEVEL true)
    [sample_view 3 view_role_t.VIEW_ROLE_TOPLEVEL true,
     sample_view 3 view_role_t.VIEW_ROLE_TOPLEVEL true]
    (by simp [sample_view]) (by decide)

/-! ## Geometry -/

/-- An event that leaves the state alone and emits nothing can be dropped from
the head of a run. -/
theorem run_cons_silent (st : State) (e : Event) (es : List Event)
    (h : handle st e = .ok { st := st, emitted := [] }) : run st (e :: es) = run st es := by
  simp only [run, h]
  cases run st es <;> simp

/-- With the geometry toggle off, any number of geometry-changed events emits
nothing and leaves the state as it was. -/
theorem run_geometry_off (views : List wayfire_view) :
    ∀ st : State, st.geometry_signal = false →
      run st (views.map Event.geometry_changed) = .ok { st := st, emitted := [] } := by
  induction views with
  | nil => intro st _; rfl
  | cons w ws ih =>
    intro st hoff
    rw [List.map_cons, run_cons_silent _ _ _ (by
      simp [handle, view_geometry_changed, hoff, Except.map, ViewResult.toResult])]
    exact ih st hoff

/-- C5: from a state with the geometry toggle off, any number of
geometry-changed events (null views included) emits no bus signal.  When
such a run is followed by a settings change of key "geometry-signal" to true
and then by further events, the bus signals of the whole run are exactly
those the later events emit in the toggled state: the events before the
change stay unpublished. -/
theorem geometry_gate (st : State) (before : List wayfire_view) (settings : GSettings)
    (later : List Event)
    (hoff : st.geometry_signal = false) (hon : settings.geometry_signal = true) :
    run st (before.map Event.geometry_changed) = .ok { st := st, emitted := [] } ∧
    run st (before.map Event.geometry_changed ++
        Event.settings_changed settings "geometry-signal" :: later)
      = run { st with geometry_signal := true } later := by
  refine ⟨run_geometry_off before st hoff, ?_⟩
  induction before with
  | nil =>
    simp only [List.map_nil, List.nil_append, run, handle, settings_changed, hon, if_true]
    cases run { st with geometry_signal := true } later <;> simp
  | cons w ws ih =>
    rw [List.map_cons, List.cons_append, run_cons_silent _ _ _ (by
      simp [handle, view_geometry_changed, hoff, Except.map, ViewResult.toResult])]
    exact ih

/-- C5 at a concrete input: two geometry events (one with a null view) while
the toggle is off, the settings change, then one geometry event for view 5:
only the last event is published. -/
theorem geometry_gate_witness :
    run (backend_globals [] false 0)
        ([some geometry_view, none].map Event.geometry_changed ++
          Event.settings_changed { geometry_signal := true, startup_notify := "" }
            "geometry-signal" :: [Event.geometry_changed (some geometry_view)])
      = .ok { st := { backend_globals [] false 0 with geometry_signal := true }
              emitted := [⟨"view_geometry_changed",
                some [GVariant.u 5, GVariant.i 0, GVariant.i 0, GVariant.i 800,
                      GVariant.i 600]⟩] } := by
  rw [(geometry_gate (backend_globals [] false 0) [some geometry_view, none]
    { geometry_signal := true, startup_notify := "" }
    [Event.geometry_changed (some geometry_view)] rfl rfl).2]
  rfl

/-- C6: after the callback for a change of the settings key "geometry-signal"
to true (from false or from any earlier value), a geometry-changed event for
a view with id i and output geometry (x, y, w, h), top-level or of any other
role, returns normally and emits exactly one bus signal,
view_geometry_changed(i, x, y, w, h), the five fields in that order. -/
theorem geometry_payload (st : State) (settings : GSettings) (v : view_t)
    (hon : settings.geometry_signal = true) :
    view_geometry_changed (settings_changed st settings "geometry-signal") (some v)
      = .ok { st := settings_changed st settings "geometry-signal"
              view := some v
              emitted := [⟨"view_geometry_changed",
                some [GVariant.u v.id, GVariant.i v.output_geometry.x,
                      GVariant.i v.output_geometry.y, GVariant.i v.output_geometry.width,
                      GVariant.i v.output_geometry.height]⟩] } := by
  simp [view_geometry_changed, settings_changed, hon]

/-- C6 at the scenario of the claim: the toggle starts off, the key changes to
true, then the top-level view 5 with bounds (0, 0, 800, 600) changes geometry. -/
theorem geometry_payload_witness :
    (backend_globals [] false 0).geometry_signal = false ∧
    geometry_view.role = view_role_t.VIEW_ROLE_TOPLEVEL ∧
    (view_geometry_changed
        (settings_changed (backend_globals [] false 0)
          { geometry_signal := true, startup_notify := "" } "geometry-signal")
        (some geometry_view)).map (fun r => r.emitted)
      = .ok [⟨"view_geometry_changed",
          some [GVariant.u 5, GVariant.i 0, GVariant.i 0, GVariant.i 800, GVariant.i 600]⟩] := by
  refine ⟨rfl, rfl, ?_⟩
  rw [geometry_payload (backend_globals [] false 0)
    { geometry_signal := true, startup_notify := "" } geometry_view rfl]
  rfl

/-! ## Tracking of outputs: auxiliary facts -/

/-- The connect_signal calls of connect_all only append handles. -/
theorem connect_all_eq (provider : provider_t) (signals : List (String × handler_t)) :
    ∀ st : State, connect_all provider signals st
      = { st with connections :=
            st.connections ++ signals.map (fun e => ⟨provider, e.1, e.2⟩) } := by
  induction signals with
  | nil => intro st; simp [connect_all]
  | cons e es ih =>
    intro st
    have h := ih (connect_signal st provider e.1 e.2)
    simp only [connect_all, List.foldl_cons] at h ⊢
    rw [h]
    simp [connect_signal]

/-- Membership after set_insert. -/
theorem mem_set_insert (s : List output_t) (x y : output_t) :
    y ∈ set_insert s x ↔ y = x ∨ y ∈ s := by
  unfold set_insert
  split
  · constructor
    · intro h; exact Or.inr h
    · rintro (h | h)
      · subst h; assumption
      · exact h
  · simp [or_comm]

/-- Membership after set_erase. -/
theorem mem_set_erase (s : List output_t) (x y : output_t) :
    y ∈ set_erase s x ↔ y ≠ x ∧ y ∈ s := by
  simp [set_erase, and_comm]

/-- Keys after map_erase. -/
theorem mem_keys_map_erase (m : List (output_t × plugin_grab_interface_t)) (k y : output_t) :
    y ∈ map_keys (map_erase m k) ↔ y ≠ k ∧ y ∈ map_keys m := by
  simp only [map_keys, map_erase, List.mem_map, List.mem_filter, decide_eq_true_eq]
  constructor
  · rintro ⟨e, ⟨he, hne⟩, rfl⟩
    exact ⟨hne, e, he, rfl⟩
  · rintro ⟨hne, e, he, rfl⟩
    exact ⟨e, ⟨he, hne⟩, rfl⟩

/-- Keys after map_assign. -/
theorem mem_keys_map_assign (m : List (output_t × plugin_grab_interface_t)) (k y : output_t)
    (v : plugin_grab_interface_t) :
    y ∈ map_keys (map_assign m k v) ↔ y = k ∨ y ∈ map_keys m := by
  have h := mem_keys_map_erase m k y
  simp only [map_keys] at h
  simp only [map_assign, map_keys, List.map_append, List.mem_append, h, List.map_cons,
    List.map_nil, List.mem_singleton]
  by_cases hy : y = k <;> simp [hy]

/-- Erasing a key that is absent leaves a map as it was. -/
theorem map_erase_absent (m : List (output_t × plugin_grab_interface_t)) (k : output_t)
    (h : k ∉ map_keys m) : map_erase m k = m := by
  simp only [map_erase, List.filter_eq_self, decide_eq_true_eq]
  intro e he hk
  exact h (List.mem_map.mpr ⟨e, he, hk⟩)

/-- After map_assign the key has exactly one entry. -/
theorem count_map_assign (m : List (output_t × plugin_grab_interface_t)) (k : output_t)
    (v : plugin_grab_interface_t) :
    ((map_assign m k v).filter (fun e => decide (e.1 = k))).length = 1 := by
  have h : (map_erase m k).filter (fun e => decide (e.1 = k)) = [] := by
    simp only [map_erase, List.filter_filter, List.filter_eq_nil_iff]
    intro e _
    simp
  simp [map_assign, List.filter_append, h]

/-- After map_erase the key has no entry. -/
theorem count_map_erase (m : List (output_t × plugin_grab_interface_t)) (k : output_t) :
    ((map_erase m k).filter (fun e => decide (e.1 = k))).length = 0 := by
  have h : (map_erase m k).filter (fun e => decide (e.1 = k)) = [] := by
    simp only [map_erase, List.filter_filter, List.filter_eq_nil_iff]
    intro e _
    simp
  simp [h]

/-! ## The coupling invariant -/

/-- A state grows from itself. -/
theorem grows_refl (st : State) : Grows st st := ⟨rfl, rfl, [], by simp⟩

/-- The coupling survives every step that only adds subscription handles. -/
theorem coupled_of_grows {st st1 : State} (hc : Coupled st) (hg : Grows st st1) : Coupled st1 := by
  obtain ⟨h1, h2, extra, h3⟩ := hg
  intro o
  obtain ⟨a, b⟩ := hc o
  refine ⟨by rw [h1, h2]; exact a, ?_⟩
  intro ho
  rw [h1] at ho
  have := b ho
  simp only [has_subscription, h3, List.any_append, Bool.or_eq_true] at this ⊢
  exact Or.inl this

/-- Every slot other than the two output tracking slots leaves the registry and
the grab interfaces alone and only adds subscription handles. -/
theorem handle_grows (st : State) (e : Event) (r : Result) (h : handle st e = .ok r)
    (hadd : ∀ core o, e ≠ Event.output_added core o)
    (hrem : ∀ core o, e ≠ Event.output_removed core o) : Grows st r.st := by
  cases e with
  | output_added core o => exact absurd rfl (hadd core o)
  | output_removed core o => exact absurd rfl (hrem core o)
  | view_mapped view =>
    cases view with
    | none =>
      simp [handle, output_view_added, Except.map, ViewResult.toResult] at h
      subst h; exact grows_refl st
    | some v =>
      simp [handle, output_view_added, Except.map, ViewResult.toResult, connect_all_eq] at h
      subst h; exact ⟨rfl, rfl, _, rfl⟩
  | settings_changed settings key =>
    simp [handle, settings_changed] at h
    subst h
    split <;> exact ⟨rfl, rfl, [], by simp⟩
  | pointer_button core ev =>
    simp only [handle, pointer_button_signal] at h
    injection h with h; subst h; exact grows_refl st
  | tablet_button =>
    simp only [handle, tablet_button_signal] at h
    injection h with h; subst h; exact grows_refl st
  | output_configuration_changed =>
    simp only [handle, output_configuration_changed] at h
    injection h with h; subst h; exact grows_refl st
  | workspace_changed signal =>
    simp only [handle, output_workspace_changed] at h
    injection h with h; subst h; exact grows_refl st
  | _ =>
    simp only [handle, Except.map] at h
    split at h
    · cases h
    · rename_i vr heq
      injection h with h
      subst h
      simp only [view_timeout, view_closed,
        view_app_id_changed, view_title_changed, view_fullscreen_changed, view_geometry_changed,
        view_tiled, view_output_moved, view_output_move_requested, role_changed,
        view_workspaces_changed, output_view_maximized, output_view_minimized,
        output_view_focus_changed, view_focus_request, view_hints_changed, output_view_moving,
        output_view_resizing, on_view_keep_above] at heq
      repeat' split at heq
      all_goals
        first
        | (injection heq with heq; subst heq; exact ⟨rfl, rfl, [], by simp [ViewResult.toResult, FocusRequestResult.toResult]⟩)
        | (cases heq)

/-- Growth composes. -/
theorem grows_trans {a b c : State} (h1 : Grows a b) (h2 : Grows b c) : Grows a c := by
  obtain ⟨p1, q1, e1, r1⟩ := h1
  obtain ⟨p2, q2, e2, r2⟩ := h2
  exact ⟨by rw [p2, p1], by rw [q2, q1], e1 ++ e2, by rw [r2, r1, List.append_assoc]⟩

/-- A run of connect_signal calls is a growth step. -/
theorem grows_connect_all (provider : provider_t) (signals : List (String × handler_t))
    (st : State) : Grows st (connect_all provider signals st) := by
  rw [connect_all_eq]
  exact ⟨rfl, rfl, _, rfl⟩

/-- The constructor loop over the views is a growth step. -/
theorem grows_startup_views (views : List view_t) :
    ∀ st : State, Grows st (views.foldl startup_view st) := by
  induction views with
  | nil => intro st; exact grows_refl st
  | cons v vs ih =>
    intro st
    exact grows_trans (grows_connect_all _ _ st) (ih _)

/-- After a non-empty run of connect_signal calls on an output, the output has
subscription handles. -/
theorem has_subscription_connect_all (output : output_t) (signals : List (String × handler_t))
    (st : State) (h : signals ≠ []) :
    has_subscription (connect_all (provider_t.output output) signals st) output = true := by
  rw [connect_all_eq]
  cases signals with
  | nil => exact absurd rfl h
  | cons e es => simp [has_subscription]

/-- Subscription handles are never lost by a growth step. -/
theorem has_subscription_of_grows {st st1 : State} (hg : Grows st st1) (o : output_t)
    (h : has_subscription st o = true) : has_subscription st1 o = true := by
  obtain ⟨_, _, extra, h3⟩ := hg
  simp only [has_subscription, h3, List.any_append, Bool.or_eq_true] at h ⊢
  exact Or.inl h

/-- Tracking an output (grab interface, subscriptions, registry entry) keeps the
coupling. -/
theorem coupled_track (st : State) (output : output_t) (signals : List (String × handler_t))
    (hs : signals ≠ []) (wf : List output_t) (hc : Coupled st) :
    Coupled { connect_all (provider_t.output output) signals
                { st with grab_interfaces :=
                    map_assign st.grab_interfaces output (make_grab_interface output) } with
              wf_outputs := wf
              connected_wf_outputs := set_insert st.connected_wf_outputs output } := by
  intro o
  obtain ⟨a, b⟩ := hc o
  rw [connect_all_eq]
  refine ⟨?_, ?_⟩
  · simp only [mem_set_insert, mem_keys_map_assign, a]
  · intro ho
    simp only [mem_set_insert] at ho
    rcases ho with ho | ho
    · subst ho
      cases signals with
      | nil => exact absurd rfl hs
      | cons e es => simp [has_subscription]
    · have := b ho
      simp only [has_subscription, List.any_append, Bool.or_eq_true] at this ⊢
      exact Or.inl this

/-- The body of the constructor loop over the outputs keeps the coupling. -/
theorem coupled_startup_output (st : State) (output : output_t) (hc : Coupled st) :
    Coupled (startup_output st output) := by
  have h := coupled_track st output startup_output_signals (by decide) st.wf_outputs hc
  simpa [startup_output, connect_all_eq] using h

/-- The slot output_layout_output_added keeps the coupling. -/
theorem coupled_output_added (core : compositor_core_t) (st : State) (output : output_t)
    (hc : Coupled st) : Coupled (output_layout_output_added core st output).st := by
  unfold output_layout_output_added
  split
  · exact hc
  · have h := coupled_track st output added_output_signals (by decide) core.get_outputs hc
    simpa [connect_all_eq] using h

/-- The slot output_layout_output_removed keeps the coupling. -/
theorem coupled_output_removed (core : compositor_core_t) (st : State) (output : output_t)
    (hc : Coupled st) : Coupled (output_layout_output_removed core st output).st := by
  unfold output_layout_output_removed
  split
  · intro o
    obtain ⟨a, b⟩ := hc o
    refine ⟨?_, ?_⟩
    · simp only [mem_set_erase, mem_keys_map_erase, a]
    · intro ho
      simp only [mem_set_erase] at ho
      exact b ho.2
  · rename_i hnot
    have hk : output ∉ map_keys st.grab_interfaces := by
      intro hk
      have := ((hc output).1).mpr hk
      simp [set_contains, this] at hnot
    rw [map_erase_absent _ _ hk]
    exact hc

/-- The constructor loop over the outputs keeps the coupling. -/
theorem coupled_startup_outputs (outputs : List output_t) :
    ∀ st : State, Coupled st → Coupled (outputs.foldl startup_output st) := by
  induction outputs with
  | nil => intro st hc; exact hc
  | cons o os ih =>
    intro st hc
    rw [List.foldl_cons]
    exact ih (startup_output st o) (coupled_startup_output st o hc)

/-- After its loop over the outputs the constructor only adds subscription
handles (and sets scalars). -/
theorem grows_constructor (core : compositor_core_t) (settings : GSettings) (g : State) :
    Grows (g.wf_outputs.foldl startup_output g) (dbus_interface_t core settings g) := by
  have h2 := grows_startup_views core.get_all_views (g.wf_outputs.foldl startup_output g)
  have h3 := grows_trans h2 (grows_connect_all provider_t.core core_signals _)
  have h4 := grows_trans h3 (grows_connect_all provider_t.output_layout output_layout_signals _)
  have h5 := grows_trans h4 (grows_connect_all provider_t.settings
    [("changed", handler_t.settings_changed)] _)
  obtain ⟨p, q, extra, r⟩ := h5
  simp only [connect_all, List.foldl_cons, List.foldl_nil] at p q r
  unfold dbus_interface_t
  simp only [connect_all]
  split
  · exact ⟨p, q, extra, r⟩
  · exact ⟨p, q, extra, r⟩

/-- The state the constructor leaves is coupled. -/
theorem coupled_constructor (core : compositor_core_t) (settings : GSettings)
    (wf_outputs : List output_t) (find_view_under_action : Bool) (focused_view_id : Nat) :
    Coupled (dbus_interface_t core settings
      (backend_globals wf_outputs find_view_under_action focused_view_id)) := by
  have h0 : Coupled (backend_globals wf_outputs find_view_under_action focused_view_id) := by
    intro o; simp [backend_globals, map_keys]
  exact coupled_of_grows (coupled_startup_outputs _ _ h0) (grows_constructor core settings _)

/-- Every reachable state is coupled. -/
theorem reachable_coupled {st : State} (h : Reachable st) : Coupled st := by
  induction h with
  | construct core settings wf_outputs find focused =>
    exact coupled_constructor core settings wf_outputs find focused
  | step e hr he ih =>
    rename_i st0 r
    cases e with
    | output_added core o =>
      simp only [handle] at he
      injection he with he; subst he
      exact coupled_output_added core st0 o ih
    | output_removed core o =>
      simp only [handle] at he
      injection he with he; subst he
      exact coupled_output_removed core st0 o ih
    | _ =>
      exact coupled_of_grows ih (handle_grows _ _ _ he (by intro c o hh; cases hh)
        (by intro c o hh; cases hh))


/-! ## Tracking and untracking outputs -/

/-- C7: an output-added notification for an output that is already in the
registry is a no-op: no bus signal, and the whole state (registry, grab
interfaces, subscription handles) is unchanged.  Hence, from any state, a
second output-added for the same output changes nothing after the first.
When the output was not tracked, the first notification leaves exactly one
grab interface for it; and when it had no subscription handle before, its
handles afterwards are exactly the thirteen of added_output_signals, one per
signal name (the names are pairwise distinct). -/
theorem idempotent_tracking (core1 core2 : compositor_core_t) (st : State) (o : output_t) :
    (o ∈ st.connected_wf_outputs →
      output_layout_output_added core1 st o = { st := st, emitted := [] }) ∧
    output_layout_output_added core2 (output_layout_output_added core1 st o).st o
      = { st := (output_layout_output_added core1 st o).st, emitted := [] } ∧
    (o ∉ st.connected_wf_outputs →
      grab_count (output_layout_output_added core1 st o).st o = 1 ∧
      (output_handles st o = [] →
        output_handles (output_layout_output_added core1 st o).st o
          = added_output_signals.map (fun e => ⟨provider_t.output o, e.1, e.2⟩))) ∧
    (added_output_signals.map Prod.fst).Nodup := by
  refine ⟨?_, ?_, ?_, by decide⟩
  · intro h
    simp [output_layout_output_added, set_contains, h]
  · by_cases h : o ∈ st.connected_wf_outputs
    · simp [output_layout_output_added, set_contains, h]
    · have h2 : o ∈ (output_layout_output_added core1 st o).st.connected_wf_outputs := by
        simp [output_layout_output_added, set_contains, h, connect_all_eq, mem_set_insert]
      generalize output_layout_output_added core1 st o = r at h2
      simp [output_layout_output_added, set_contains, h2]
  · intro h
    refine ⟨?_, ?_⟩
    · simp only [output_layout_output_added, set_contains, h, decide_False, connect_all_eq,
        grab_count]
      simp [count_map_assign]
    · intro hh
      simp only [output_handles] at hh
      simp [output_layout_output_added, set_contains, h, connect_all_eq, output_handles,
        List.filter_append, hh]
      intro a x y _ ha
      subst ha
      rfl

/-- C7 at concrete inputs on the startup state: output 1 is tracked, output 2
is new and is added twice in a row. -/
theorem idempotent_tracking_witness :
    (⟨1⟩ : output_t) ∈ startup_state.connected_wf_outputs ∧
    (⟨2⟩ : output_t) ∉ startup_state.connected_wf_outputs ∧
    output_handles startup_state ⟨2⟩ = [] ∧
    output_layout_output_added (sample_core 0 0 none) startup_state ⟨1⟩
      = { st := startup_state, emitted := [] } ∧
    output_layout_output_added (sample_core 0 0 none)
        (output_layout_output_added (sample_core 0 0 none) startup_state ⟨2⟩).st ⟨2⟩
      = { st := (output_layout_output_added (sample_core 0 0 none) startup_state ⟨2⟩).st
          emitted := [] } ∧
    grab_count (output_layout_output_added (sample_core 0 0 none) startup_state ⟨2⟩).st ⟨2⟩ = 1 ∧
    (output_handles (output_layout_output_added (sample_core 0 0 none)
        (output_layout_output_added (sample_core 0 0 none) startup_state ⟨2⟩).st ⟨2⟩).st
        ⟨2⟩).length = 13 := by
  have h1 := idempotent_tracking (sample_core 0 0 none) (sample_core 0 0 none) startup_state ⟨1⟩
  have h2 := idempotent_tracking (sample_core 0 0 none) (sample_core 0 0 none) startup_state ⟨2⟩
  have hin : (⟨1⟩ : output_t) ∈ startup_state.connected_wf_outputs := by decide
  have hout : (⟨2⟩ : output_t) ∉ startup_state.connected_wf_outputs := by decide
  have hfresh : output_handles startup_state ⟨2⟩ = [] := by decide
  refine ⟨hin, hout, hfresh, h1.1 hin, h2.2.1, (h2.2.2.1 hout).1, ?_⟩
  rw [h2.2.1, (h2.2.2.1 hout).2 hfresh]
  rfl


/-- C8, as stated, fails: the handler never unsubscribes.  Output 1 is tracked
in the startup state, and after its output-removed notification it still has
its thirteen subscription handles.  Likewise output 2, added twice and then
removed, keeps the thirteen handles of its first output-added. -/
theorem untrack_counterexample :
    Reachable startup_state ∧
    (⟨1⟩ : output_t) ∈ startup_state.connected_wf_outputs ∧
    output_handles (output_layout_output_removed (sample_core 0 0 none) startup_state ⟨1⟩).st ⟨1⟩
      ≠ [] ∧
    (output_handles (output_layout_output_removed (sample_core 0 0 none) startup_state ⟨1⟩).st
      ⟨1⟩).length = 13 ∧
    (output_handles
      (output_layout_output_removed (sample_core 0 0 none)
        (output_layout_output_added (sample_core 0 0 none)
          (output_layout_output_added (sample_core 0 0 none) startup_state ⟨2⟩).st ⟨2⟩).st
        ⟨2⟩).st ⟨2⟩).length = 13 := by
  refine ⟨Reachable.construct _ _ _ _ _, by decide, by decide, by decide, by decide⟩

/-- C8 amended: in every reachable state, an output-removed notification for
a tracked output O emits exactly output_removed(O.id), erases O from the
registry and erases its grab interface (the cached output list is refreshed
from the core), and leaves all subscription handles in place.  For an output
that is not tracked it emits nothing and leaves the whole state unchanged. -/
theorem untrack (core : compositor_core_t) (st : State) (o : output_t) (hr : Reachable st) :
    (o ∈ st.connected_wf_outputs →
      output_layout_output_removed core st o
        = { st := { st with
                    wf_outputs := core.get_outputs
                    connected_wf_outputs := set_erase st.connected_wf_outputs o
                    grab_interfaces := map_erase st.grab_interfaces o }
            emitted := [⟨"output_removed", some [GVariant.u o.id]⟩] } ∧
      o ∉ (output_layout_output_removed core st o).st.connected_wf_outputs ∧
      grab_count (output_layout_output_removed core st o).st o = 0 ∧
      (output_layout_output_removed core st o).st.connections = st.connections) ∧
    (o ∉ st.connected_wf_outputs →
      output_layout_output_removed core st o = { st := st, emitted := [] }) := by
  constructor
  · intro h
    have hres : output_layout_output_removed core st o
        = { st := { st with
                    wf_outputs := core.get_outputs
                    connected_wf_outputs := set_erase st.connected_wf_outputs o
                    grab_interfaces := map_erase st.grab_interfaces o }
            emitted := [⟨"output_removed", some [GVariant.u o.id]⟩] } := by
      simp [output_layout_output_removed, set_contains, h]
    rw [hres]
    refine ⟨rfl, ?_, ?_, rfl⟩
    · simp [mem_set_erase]
    · simp only [grab_count]
      exact count_map_erase _ _
  · intro h
    have hk : o ∉ map_keys st.grab_interfaces := fun hk =>
      h (((reachable_coupled hr o).1).mpr hk)
    simp [output_layout_output_removed, set_contains, h, map_erase_absent _ _ hk]

/-- C8 amended at concrete inputs on the startup state: the tracked output 1
and the untracked output 2. -/
theorem untrack_witness :
    (output_layout_output_removed (sample_core 0 0 none) startup_state ⟨1⟩).emitted
      = [⟨"output_removed", some [GVariant.u 1]⟩] ∧
    (output_layout_output_removed (sample_core 0 0 none) startup_state ⟨1⟩).st.connected_wf_outputs
      = [] ∧
    (output_layout_output_removed (sample_core 0 0 none) startup_state ⟨1⟩).st.grab_interfaces
      = [] ∧
    output_layout_output_removed (sample_core 0 0 none) startup_state ⟨2⟩
      = { st := startup_state, emitted := [] } := by
  have h1 := (untrack (sample_core 0 0 none) startup_state ⟨1⟩
    (Reachable.construct _ _ _ _ _)).1 (by decide)
  have h2 := (untrack (sample_core 0 0 none) startup_state ⟨2⟩
    (Reachable.construct _ _ _ _ _)).2 (by decide)
  refine ⟨?_, ?_, ?_, h2⟩
  · rw [h1.1]
  · rw [h1.1]; decide
  · rw [h1.1]; decide

/-! ## Registry coupling -/

/-- C9, as stated, fails: after the output-removed notification for output 1
in the startup state, a state reached by that one notification, output 1 is
neither in the registry nor in the table of grab interfaces, yet it still
has subscription handles. -/
theorem registry_coupling_counterexample :
    Reachable (output_layout_output_removed (sample_core 0 0 none) startup_state ⟨1⟩).st ∧
    (⟨1⟩ : output_t) ∉
      (output_layout_output_removed (sample_core 0 0 none) startup_state ⟨1⟩).st.connected_wf_outputs ∧
    (⟨1⟩ : output_t) ∉ map_keys
      (output_layout_output_removed (sample_core 0 0 none) startup_state ⟨1⟩).st.grab_interfaces ∧
    has_subscription
      (output_layout_output_removed (sample_core 0 0 none) startup_state ⟨1⟩).st ⟨1⟩ = true ∧
    ¬ ((⟨1⟩ : output_t) ∈
        (output_layout_output_removed (sample_core 0 0 none) startup_state
          ⟨1⟩).st.connected_wf_outputs ↔
      has_subscription
        (output_layout_output_removed (sample_core 0 0 none) startup_state ⟨1⟩).st ⟨1⟩ = true) := by
  refine ⟨?_, by decide, by decide, by decide, by decide⟩
  exact Reachable.step (Event.output_removed (sample_core 0 0 none) ⟨1⟩)
    (Reachable.construct _ _ _ _ _) rfl

/-- C9 amended: in every state reachable from construction (by output-added
and output-removed notifications, and by any other event as well), for every
output O: O is in the registry if and only if O has an entry in the table of
grab interfaces, and if O is in the registry then O has subscription
handles. -/
theorem registry_coupling (st : State) (o : output_t) (hr : Reachable st) :
    (o ∈ st.connected_wf_outputs ↔ o ∈ map_keys st.grab_interfaces) ∧
    (o ∈ st.connected_wf_outputs → has_subscription st o = true) :=
  reachable_coupled hr o

/-- C9 amended at a concrete input: output 2 after its output-added
notification on the startup state. -/
theorem registry_coupling_witness :
    (⟨2⟩ : output_t) ∈
      (output_layout_output_added (sample_core 0 0 none) startup_state ⟨2⟩).st.connected_wf_outputs ∧
    (⟨2⟩ : output_t) ∈ map_keys
      (output_layout_output_added (sample_core 0 0 none) startup_state ⟨2⟩).st.grab_interfaces ∧
    has_subscription
      (output_layout_output_added (sample_core 0 0 none) startup_state ⟨2⟩).st ⟨2⟩ = true := by
  have h := registry_coupling
    (output_layout_output_added (sample_core 0 0 none) startup_state ⟨2⟩).st ⟨2⟩
    (Reachable.step (Event.output_added (sample_core 0 0 none) ⟨2⟩)
      (Reachable.construct _ _ _ _ _) rfl)
  have hin : (⟨2⟩ : output_t) ∈
      (output_layout_output_added (sample_core 0 0 none) startup_state ⟨2⟩).st.connected_wf_outputs := by
    decide
  exact ⟨hin, h.1.mp hin, h.2 hin⟩

/-! ## Duplicate subscriptions -/

/-- C10 on the code: view 7 is subscribed by the constructor, one handle per
signal name.  A view-mapped notification for view 7 then calls connect_signal
again for each of the six view signals, so that each pair has two handles.
Likewise output 1, removed and added again, has two handles for
"view-focused". -/
theorem view_mapped_again_duplicates :
    (handles startup_state (provider_t.view 7) "title-changed").length = 1 ∧
    (output_view_added startup_state (some (sample_view 7 view_role_t.VIEW_ROLE_TOPLEVEL true))).map
        (fun r => view_signals.map
          (fun e => (handles r.st (provider_t.view 7) e.1).length))
      = .ok [2, 2, 2, 2, 2, 2] ∧
    (handles
      (output_layout_output_added (sample_core 0 0 none)
        (output_layout_output_removed (sample_core 0 0 none) startup_state ⟨1⟩).st ⟨1⟩).st
      (provider_t.output ⟨1⟩) "view-focused").length = 2 := by
  refine ⟨by decide, ?_, by decide⟩
  simp only [output_view_added, Except.map]
  exact congrArg Except.ok (by decide)

/-! ## Hot-plug round trip -/

/-- An output-added notification for an output outside the registry emits
output_added and puts the output into the registry. -/
theorem added_untracked (core : compositor_core_t) (st : State) (o : output_t)
    (h : o ∉ st.connected_wf_outputs) :
    (output_layout_output_added core st o).emitted = [⟨"output_added", some [GVariant.u o.id]⟩] ∧
    o ∈ (output_layout_output_added core st o).st.connected_wf_outputs := by
  simp [output_layout_output_added, set_contains, h, connect_all_eq, mem_set_insert]

/-- An output-removed notification for an output in the registry emits
output_removed and takes the output out of the registry. -/
theorem removed_tracked (core : compositor_core_t) (st : State) (o : output_t)
    (h : o ∈ st.connected_wf_outputs) :
    (output_layout_output_removed core st o).emitted
      = [⟨"output_removed", some [GVariant.u o.id]⟩] ∧
    o ∉ (output_layout_output_removed core st o).st.connected_wf_outputs := by
  simp [output_layout_output_removed, set_contains, h, mem_set_erase]

/-- C11: the constructor, which tracks the outputs present at startup, emits
no bus signal at all, hence no output_added.  Afterwards, for every output
that is not in the registry at that point, the notifications added, removed,
added, removed are all handled normally and emit exactly output_added(id),
output_removed(id), output_added(id), output_removed(id), in that order and
nothing else. -/
theorem hot_plug_round_trip (core : compositor_core_t) (settings : GSettings) (g : State)
    (c1 c2 c3 c4 : compositor_core_t) (o : output_t)
    (h : o ∉ (construct core settings g).st.connected_wf_outputs) :
    (construct core settings g).emitted = [] ∧
    (run (construct core settings g).st (hot_plug c1 c2 c3 c4 o)).map (fun r => r.emitted)
      = .ok [⟨"output_added", some [GVariant.u o.id]⟩,
             ⟨"output_removed", some [GVariant.u o.id]⟩,
             ⟨"output_added", some [GVariant.u o.id]⟩,
             ⟨"output_removed", some [GVariant.u o.id]⟩] := by
  refine ⟨rfl, ?_⟩
  generalize (construct core settings g).st = st at h
  obtain ⟨e1, m1⟩ := added_untracked c1 st o h
  obtain ⟨e2, m2⟩ := removed_tracked c2 _ o m1
  obtain ⟨e3, m3⟩ := added_untracked c3 _ o m2
  obtain ⟨e4, _⟩ := removed_tracked c4 _ o m3
  simp only [hot_plug, run, handle, Except.map, e1, e2, e3, e4]
  rfl

/-- C11 at a concrete input: output 2 on the startup state, whose registry holds
output 1 only. -/
theorem hot_plug_round_trip_witness :
    (⟨2⟩ : output_t) ∉ startup_state.connected_wf_outputs ∧
    (run startup_state
        (hot_plug (sample_core 0 0 none) (sample_core 0 0 none) (sample_core 0 0 none)
          (sample_core 0 0 none) ⟨2⟩)).map (fun r => r.emitted)
      = .ok [⟨"output_added", some [GVariant.u 2]⟩,
             ⟨"output_removed", some [GVariant.u 2]⟩,
             ⟨"output_added", some [GVariant.u 2]⟩,
             ⟨"output_removed", some [GVariant.u 2]⟩] :=
  ⟨by decide, (hot_plug_round_trip _ _ _ _ _ _ _ ⟨2⟩ (by decide)).2⟩

/-! ## Subscription lists, focus requests, roles, settings -/

/-- C12 on the code: the pairs the constructor connects on an output and the
pairs output_layout_output_added connects differ in one signal name.  The
constructor connects view_workspaces_changed to "view-change-workspace",
output_layout_output_added connects it to "view-change-viewport"; all other
pairs agree.  So output 1, tracked at startup, and output 2, tracked by a
later notification, end with different sets.  For views the two paths agree:
view 7, found at startup, and view 8, reported by view-mapped, both get the
six pairs of view_signals. -/
theorem output_subscription_lists_differ :
    startup_output_signals.filter (fun e => decide (e ∉ added_output_signals))
      = [("view-change-workspace", handler_t.view_workspaces_changed)] ∧
    added_output_signals.filter (fun e => decide (e ∉ startup_output_signals))
      = [("view-change-viewport", handler_t.view_workspaces_changed)] ∧
    connected_pairs startup_state (provider_t.output ⟨1⟩) = startup_output_signals ∧
    connected_pairs (output_layout_output_added (sample_core 0 0 none) startup_state ⟨2⟩).st
        (provider_t.output ⟨2⟩) = added_output_signals ∧
    connected_pairs startup_state (provider_t.view 7) = view_signals ∧
    (output_view_added startup_state
        (some (sample_view 8 view_role_t.VIEW_ROLE_TOPLEVEL true))).map
        (fun r => connected_pairs r.st (provider_t.view 8))
      = .ok view_signals := by
  refine ⟨by decide, by decide, by decide, by decide, by decide, ?_⟩
  simp only [output_view_added, Except.map]
  exact congrArg Except.ok (by decide)

/-- C13, as stated, fails: a self-request that is not yet carried out, for view 9
whose role is unmanaged, is past the two gates the claim names, yet the
handler returns at its third gate, check_view_toplevel, and carried_out stays
false; the view is neither activated nor focused. -/
theorem focus_request_gate_counterexample :
    view_focus_request (backend_globals [] false 0)
        { view := some (sample_view 9 view_role_t.VIEW_ROLE_UNMANAGED false)
          carried_out := false, self_request := true }
      = .ok { st := backend_globals [] false 0
              signal := { view := some (sample_view 9 view_role_t.VIEW_ROLE_UNMANAGED false)
                          carried_out := false, self_request := true }
              emitted := [] } ∧
    (view_focus_request (backend_globals [] false 0)
        { view := some (sample_view 9 view_role_t.VIEW_ROLE_UNMANAGED false)
          carried_out := false, self_request := true }).map (fun r => r.signal.carried_out)
      ≠ .ok true := by
  constructor <;> simp [view_focus_request, check_view_toplevel, sample_view, Except.map]

/-- C13 amended: for every focus request the handler returns normally, emits no
bus signal and leaves the plugin state unchanged.  If the request is already
carried out, or is not a self-request, or its view does not pass
check_view_toplevel (it does not resolve or is not top-level), the request
and the view are unchanged.  Otherwise carried_out becomes true, the view is
activated and one focus_request() call is made on it.  In every case a
second delivery of the request as the handler left it changes nothing. -/
theorem focus_request_machine (st : State) (signal : view_focus_request_signal) :
    ∃ r, view_focus_request st signal = .ok r ∧ r.emitted = [] ∧ r.st = st ∧
      ((signal.carried_out = true ∨ signal.self_request = false ∨
          check_view_toplevel signal.view = false) → r.signal = signal) ∧
      (∀ v, signal.carried_out = false → signal.self_request = true →
          signal.view = some v → v.role = view_role_t.VIEW_ROLE_TOPLEVEL →
        r.signal = { view := some { v with activated := true
                                           focus_requests := v.focus_requests + 1 }
                     carried_out := true
                     self_request := true }) ∧
      view_focus_request r.st r.signal = .ok { st := r.st, signal := r.signal, emitted := [] } := by
  obtain ⟨view, carried, self⟩ := signal
  cases carried <;> cases self <;> cases view with
  | none => simp [view_focus_request, check_view_toplevel]
  | some v =>
    by_cases hr : v.role = view_role_t.VIEW_ROLE_TOPLEVEL <;>
      simp [view_focus_request, check_view_toplevel, hr, view_t.set_activated,
        view_t.focus_request]

/-- C13 amended at a concrete input: a self-request for the top-level view 4
is carried out once; the second delivery changes nothing. -/
theorem focus_request_machine_witness :
    ∃ r, view_focus_request (backend_globals [] false 0)
        { view := some (sample_view 4 view_role_t.VIEW_ROLE_TOPLEVEL false)
          carried_out := false, self_request := true } = .ok r ∧
      r.signal.carried_out = true ∧
      r.signal.view = some { sample_view 4 view_role_t.VIEW_ROLE_TOPLEVEL false with
                             activated := true, focus_requests := 1 } ∧
      view_focus_request r.st r.signal = .ok { st := r.st, signal := r.signal, emitted := [] } := by
  obtain ⟨r, h1, _, _, _, h5, h6⟩ := focus_request_machine (backend_globals [] false 0)
    { view := some (sample_view 4 view_role_t.VIEW_ROLE_TOPLEVEL false)
      carried_out := false, self_request := true }
  have h := h5 (sample_view 4 view_role_t.VIEW_ROLE_TOPLEVEL false) rfl rfl rfl rfl
  exact ⟨r, h1, by rw [h], by rw [h]; rfl, h6⟩

/-- C14: for a view that resolves, role_changed (the slot of both
view-layer-attached and view-layer-detached) returns normally and emits
exactly one bus signal view_role_changed(id, r) with r = 1 for top-level,
r = 2 for desktop-environment, r = 3 for unmanaged and r = 0 for any other
role; r is at most 3. -/
theorem role_encoding (st : State) (v : view_t) :
    role_changed st (some v)
      = .ok { st := st, view := some v
              emitted := [⟨"view_role_changed",
                some [GVariant.u v.id,
                      GVariant.u (match v.role with
                                  | view_role_t.VIEW_ROLE_TOPLEVEL => 1
                                  | view_role_t.VIEW_ROLE_DESKTOP_ENVIRONMENT => 2
                                  | view_role_t.VIEW_ROLE_UNMANAGED => 3
                                  | view_role_t.VIEW_ROLE_OTHER => 0)]⟩] } ∧
    handle st (Event.view_layer_attached (some v)) = handle st (Event.view_layer_detached (some v)) ∧
    (match v.role with
     | view_role_t.VIEW_ROLE_TOPLEVEL => 1
     | view_role_t.VIEW_ROLE_DESKTOP_ENVIRONMENT => 2
     | view_role_t.VIEW_ROLE_UNMANAGED => 3
     | view_role_t.VIEW_ROLE_OTHER => 0) ≤ 3 := by
  refine ⟨?_, rfl, ?_⟩
  · cases hr : v.role <;> simp [role_changed, hr]
  · cases v.role <;> simp

/-- C15: the callback settings_changed with key "geometry-signal" sets the
geometry toggle to the stored value of that setting, changes nothing else and
warns about nothing.  With any other key it returns the state unchanged, its
only output is the warning "No such settings" followed by the key, and no bus
signal is emitted. -/
theorem config_watcher (st : State) (settings : GSettings) (key : String) :
    settings_changed st settings "geometry-signal"
      = { st with geometry_signal := settings.geometry_signal } ∧
    settings_changed_warnings "geometry-signal" = [] ∧
    (key ≠ "geometry-signal" →
      settings_changed st settings key = st ∧
      settings_changed_warnings key = ["No such settings " ++ key] ∧
      handle st (Event.settings_changed settings key) = .ok { st := st, emitted := [] }) := by
  refine ⟨by simp [settings_changed], by simp [settings_changed_warnings], ?_⟩
  intro h
  simp [settings_changed, settings_changed_warnings, handle, h]

/-- C15 at the key "startup-notify", and at "geometry-signal" with stored
value true. -/
theorem config_watcher_witness :
    settings_changed startup_state { geometry_signal := true, startup_notify := "x" }
        "startup-notify" = startup_state ∧
    settings_changed_warnings "startup-notify" = ["No such settings startup-notify"] ∧
    (settings_changed startup_state { geometry_signal := true, startup_notify := "x" }
        "geometry-signal").geometry_signal = true := by
  have h := config_watcher startup_state { geometry_signal := true, startup_notify := "x" }
    "startup-notify"
  have h2 := h.2.2 (by decide)
  refine ⟨h2.1, ?_, ?_⟩
  · rw [h2.2.1]; rfl
  · rw [h.1]

/-! ## Null views and effects on the view -/

/-- C16 on the code: with a null view the handlers output_view_added,
view_timeout, view_closed, view_app_id_changed, view_title_changed,
role_changed, output_view_moving, output_view_resizing and on_view_keep_above
return normally, emit nothing and leave the state unchanged.  The handler
view_geometry_changed with the toggle on has no such check: it dereferences
the null view. -/
theorem null_view_handlers (st : State) :
    output_view_added st none = .ok { st := st, view := none, emitted := [] } ∧
    view_timeout st none = .ok { st := st, view := none, emitted := [] } ∧
    view_closed st none = .ok { st := st, view := none, emitted := [] } ∧
    view_app_id_changed st none = .ok { st := st, view := none, emitted := [] } ∧
    view_title_changed st none = .ok { st := st, view := none, emitted := [] } ∧
    role_changed st none = .ok { st := st, view := none, emitted := [] } ∧
    output_view_moving st none = .ok { st := st, view := none, emitted := [] } ∧
    output_view_resizing st none = .ok { st := st, view := none, emitted := [] } ∧
    on_view_keep_above st none = .ok { st := st, view := none, emitted := [] } ∧
    view_geometry_changed { st with geometry_signal := true } none
      = .error Fault.null_dereference := by
  simp [output_view_added, view_timeout, view_closed, view_app_id_changed, view_title_changed,
    role_changed, output_view_moving, output_view_resizing, on_view_keep_above,
    view_geometry_changed, check_view_toplevel]

/-- C17, as stated, fails: a view-focused event for view 3 (top-level, activated,
carrying "view-demands-attention") on a state whose focused id is 0 is
accepted, and the handler leaves the view without the marker. -/
theorem focus_erases_marker_counterexample :
    attention_view.has_data "view-demands-attention" = true ∧
    (output_view_focus_changed (backend_globals [] false 0) { view := some attention_view }).map
        (fun r => r.view)
      = .ok (some { attention_view with data := [] }) ∧
    (output_view_focus_changed (backend_globals [] false 0) { view := some attention_view }).map
        (fun r => r.view)
      ≠ .ok (some attention_view) := by
  refine ⟨by decide, ?_, ?_⟩
  · simp only [output_view_focus_changed, Except.map]
    exact congrArg Except.ok (by decide)
  · simp only [output_view_focus_changed, Except.map]
    intro h
    injection h with h
    revert h
    decide

/-- C17 amended: for a view that resolves, every view handler other than
view_focus_request and output_view_focus_changed returns normally and leaves
the view object exactly as it was.  The handler view_hints_changed leaves the
view as it was and, for a top-level view, emits view_attention_changed(id, a)
where a is true exactly when the view carries "view-demands-attention".  The
handler output_view_focus_changed leaves the view as it was when it emits
nothing (focus change rejected); when it emits (accepted), the view loses the
marker "view-demands-attention" and is otherwise as it was. -/
theorem observers_leave_view (st : State) (v : view_t) (flag : Bool) (new_edges : Nat)
    (old_output new_output : output_t) :
    ((output_view_added st (some v)).map (fun r => r.view) = .ok (some v) ∧
     (view_timeout st (some v)).map (fun r => r.view) = .ok (some v) ∧
     (view_closed st (some v)).map (fun r => r.view) = .ok (some v) ∧
     (view_app_id_changed st (some v)).map (fun r => r.view) = .ok (some v) ∧
     (view_title_changed st (some v)).map (fun r => r.view) = .ok (some v) ∧
     (view_fullscreen_changed st { view := some v, state := flag }).map (fun r => r.view)
       = .ok (some v) ∧
     (view_geometry_changed st (some v)).map (fun r => r.view) = .ok (some v) ∧
     (view_tiled st { view := some v, new_edges := new_edges }).map (fun r => r.view)
       = .ok (some v) ∧
     (view_output_moved st
         { view := some v, old_output := old_output, new_output := new_output }).map
         (fun r => r.view) = .ok (some v) ∧
     (view_output_move_requested st
         { view := some v, old_output := old_output, new_output := new_output }).map
         (fun r => r.view) = .ok (some v) ∧
     (role_changed st (some v)).map (fun r => r.view) = .ok (some v) ∧
     (view_workspaces_changed st { view := some v }).map (fun r => r.view) = .ok (some v) ∧
     (output_view_maximized st { view := some v, new_edges := new_edges }).map (fun r => r.view)
       = .ok (some v) ∧
     (output_view_minimized st { view := some v, state := flag }).map (fun r => r.view)
       = .ok (some v) ∧
     (output_view_moving st (some v)).map (fun r => r.view) = .ok (some v) ∧
     (output_view_resizing st (some v)).map (fun r => r.view) = .ok (some v) ∧
     (on_view_keep_above st (some v)).map (fun r => r.view) = .ok (some v)) ∧
    ((view_hints_changed st { view := some v }).map (fun r => r.view) = .ok (some v) ∧
     (v.role = view_role_t.VIEW_ROLE_TOPLEVEL →
       view_hints_changed st { view := some v }
         = .ok { st := st, view := some v
                 emitted := [⟨"view_attention_changed",
                   some [GVariant.u v.id,
                         GVariant.b (v.has_data "view-demands-attention")]⟩] })) ∧
    (∃ r, output_view_focus_changed st { view := some v } = .ok r ∧
      (r.emitted = [] → r.view = some v) ∧
      (r.emitted ≠ [] → r.view = some (v.erase_data "view-demands-attention"))) := by
  refine ⟨?_, ⟨?_, ?_⟩, ?_⟩
  · by_cases hr : v.role = view_role_t.VIEW_ROLE_TOPLEVEL <;>
      by_cases hg : st.geometry_signal = true <;>
      simp [output_view_added, view_timeout, view_closed, view_app_id_changed,
        view_title_changed, view_fullscreen_changed, view_geometry_changed, view_tiled,
        view_output_moved, view_output_move_requested, role_changed, view_workspaces_changed,
        output_view_maximized, output_view_minimized, output_view_moving, output_view_resizing,
        on_view_keep_above, check_view_toplevel, Except.map, hr, hg]
  · by_cases hr : v.role = view_role_t.VIEW_ROLE_TOPLEVEL <;>
      simp [view_hints_changed, check_view_toplevel, Except.map, hr]
  · intro hr
    by_cases hd : v.has_data "view-demands-attention" = true <;>
      simp [view_hints_changed, check_view_toplevel, hr, hd]
  · by_cases hr : v.role = view_role_t.VIEW_ROLE_TOPLEVEL
    · by_cases hid : v.id = st.focused_view_id
      · simp [output_view_focus_changed, check_view_toplevel, hr, hid]
      · by_cases ha : v.activated = true
        · by_cases hd : v.has_data "view-demands-attention" = true
          · simp [output_view_focus_changed, check_view_toplevel, hr, hid, ha, hd]
          · have he : v.erase_data "view-demands-attention" = v := by
              simp only [view_t.has_data, decide_eq_true_eq] at hd
              have : v.data.filter (fun k => decide (k ≠ "view-demands-attention")) = v.data := by
                rw [List.filter_eq_self]
                intro k hk
                simp only [decide_eq_true_eq]
                intro hkk
                exact hd (hkk ▸ hk)
              simp only [view_t.erase_data, this]
            simp [output_view_focus_changed, check_view_toplevel, hr, hid, ha, hd, he]
        · simp [output_view_focus_changed, check_view_toplevel, hr, hid, ha]
    · simp [output_view_focus_changed, check_view_toplevel, hr]

/-- C17 amended at a concrete input: for view 3, which carries the marker,
view_hints_changed reports true and leaves the view alone. -/
theorem observers_leave_view_witness :
    attention_view.role = view_role_t.VIEW_ROLE_TOPLEVEL ∧
    view_hints_changed (backend_globals [] false 0) { view := some attention_view }
      = .ok { st := backend_globals [] false 0, view := some attention_view
              emitted := [⟨"view_attention_changed", some [GVariant.u 3, GVariant.b true]⟩] } :=
  ⟨rfl, (observers_leave_view (backend_globals [] false 0) attention_view false 0
    { id := 1 } { id := 1 }).2.1.2 rfl⟩

end DbusInterface
